import Mathlib

/-!
# powerkit / powerdwarf: the tray agent's policy engine

A shallow embedding of `src/app/systray.cpp` (class `SysTray`).

* The member variables of `SysTray` become the fields of the structure `SysTray`.
* Every slot becomes a function `SysTray → SysTray`; what the slot reads from its
  collaborators (`man`, `pm`, `tray`, `Screens`, `Common`, the X server, the session bus)
  during one run is passed in as an `Env`.
* Calls made to collaborators are appended to the ghost field `trace`, in program order.
* `def.h` is not part of the sources at hand: its enumerators and macros are the fields of
  the parameter `Def`.
* `double` battery percentages are rationals (only comparisons with integers are made on
  them); `int` arithmetic wraps to 32 bits (`wrap32`).
* `qDebug()`/`qWarning()` output is not modelled.
-/

namespace PowerKit

/-- The constants of `def.h` used by `systray.cpp`, taken as parameters. -/
structure Def where
  LOW_BATTERY : Int
  CRITICAL_BATTERY : Int
  AUTO_SLEEP_BATTERY : Int
  LID_BATTERY_DEFAULT : Int
  LID_AC_DEFAULT : Int
  CRITICAL_DEFAULT : Int
  lidNone : Int
  lidLock : Int
  lidSleep : Int
  lidHibernate : Int
  lidShutdown : Int
  criticalNone : Int
  criticalHibernate : Int
  criticalShutdown : Int
  suspendNone : Int
  suspendSleep : Int
  suspendHibernate : Int
  suspendShutdown : Int
  VIRTUAL_MONITOR : String

/-- The enumerators of each of the three action enumerations of `def.h` are pairwise
different (what C++ gives enumerators declared without initialisers, and what the `switch`
statements of `systray.cpp` need for their `case` labels). -/
def Def.EnumsDistinct (d : Def) : Prop :=
  [d.lidNone, d.lidLock, d.lidSleep, d.lidHibernate, d.lidShutdown].Nodup ∧
  [d.criticalNone, d.criticalHibernate, d.criticalShutdown].Nodup ∧
  [d.suspendNone, d.suspendSleep, d.suspendHibernate, d.suspendShutdown].Nodup

instance (d : Def) : Decidable d.EnumsDistinct := by
  unfold Def.EnumsDistinct; infer_instance

/-- Modelled from the spec: `def.h` is missing; the spec (§3) lists the lid actions as
None, Lock, Sleep, Hibernate, Shutdown, the critical actions as None, Hibernate, Shutdown
and the auto-suspend actions as None, Sleep, Hibernate, Shutdown; they are numbered in that
order from 0. The thresholds, defaults and the virtual-output name are sample values. -/
def sampleDef : Def where
  LOW_BATTERY := 20
  CRITICAL_BATTERY := 5
  AUTO_SLEEP_BATTERY := 15
  LID_BATTERY_DEFAULT := 2
  LID_AC_DEFAULT := 1
  CRITICAL_DEFAULT := 0
  lidNone := 0
  lidLock := 1
  lidSleep := 2
  lidHibernate := 3
  lidShutdown := 4
  criticalNone := 0
  criticalHibernate := 1
  criticalShutdown := 2
  suspendNone := 0
  suspendSleep := 1
  suspendHibernate := 2
  suspendShutdown := 3
  VIRTUAL_MONITOR := "VIRTUAL"

/-- Conversion of an integer to a 32-bit `int` (two's complement wrap-around). -/
def wrap32 (x : Int) : Int := (x + 2147483648) % 4294967296 - 2147483648

/-- Conversion of an integer to a 64-bit `long` (two's complement wrap-around). -/
def wrap64 (x : Int) : Int :=
  (x + 9223372036854775808) % 18446744073709551616 - 9223372036854775808

/-- The value fits a 32-bit `int`. -/
def InInt32 (x : Int) : Prop := -2147483648 ≤ x ∧ x < 2147483648

instance (x : Int) : Decidable (InInt32 x) := by
  unfold InInt32; infer_instance

/-- `QString::startsWith` (case sensitive). -/
def startsWith (s p : String) : Bool := p.data.isPrefixOf s.data

/-- The titles `SysTray` passes to `showMessage`. -/
inductive Title where
  | noIconTheme
  | onBattery
  | onAC
  | lowBattery (left : ℚ)
  | veryLowBattery (left : ℚ)
  deriving DecidableEq

/-- The texts `checkDevices` sets as tray tool tip. -/
inductive ToolTip where
  | batteryAt (left : ℚ)
  | charged
  | onAC
  | charging (t : ToolTip)
  deriving DecidableEq

/-- The themed icons `drawBattery` chooses from. -/
inductive Icon where
  | battery | ac
  | crit | critAC
  | low | lowAC
  | good | goodAC
  | full | fullAC
  | charged
  deriving DecidableEq

/-- A call made by `SysTray` that is recorded in the trace. `showMessage` is the entry into
`SysTray::showMessage`; `trayShowMessage` is the notification really displayed through
`tray->showMessage`. The remaining constructors are calls to `man`, `tray`, `xscreensaver`
and `QProcess::startDetached`. -/
inductive Call where
  | lockScreen
  | sleep
  | hibernate
  | shutdown
  | showMessage (title : Title) (critical : Bool)
  | trayShowMessage (title : Title) (critical : Bool)
  | trayShow
  | trayHide
  | setToolTip (t : ToolTip)
  | setIcon (i : Icon)
  | startXscreensaver
  | startConfig
  deriving DecidableEq

/-- The stored configuration as seen through `Common::validPowerSettings` (the key has a
value: `some`) and `Common::loadPowerSettings` (the value, after `toInt`/`toBool`). -/
structure Settings where
  startScreensaver : Option Int
  suspendBatteryTimeout : Option Int
  suspendACTimeout : Option Int
  suspendBatteryAction : Option Int
  suspendACAction : Option Int
  criticalBatteryTimeout : Option Int
  lidBatteryAction : Option Int
  lidACAction : Option Int
  criticalBatteryAction : Option Int
  freedesktopSS : Option Bool
  freedesktopPM : Option Bool
  trayNotify : Option Bool
  trayShow : Option Bool
  lidDisableIfExternal : Option Bool

/-- The outcome of the session-bus calls of `registerService`. -/
structure Bus where
  connected : Bool
  pmService : Bool
  pmObject : Bool
  ssService : Bool
  ssObject : Bool
  pdService : Bool
  pdObject : Bool

/-- What the collaborators answer during one run of a slot. -/
structure Env where
  /-- Reading `man->onBattery()`. -/
  onBattery : Bool
  /-- Reading `man->batteryLeft()`. -/
  batteryLeft : ℚ
  /-- Reading `Common::kernelCanResume()`. -/
  kernelCanResume : Bool
  /-- Reading `man->canHibernate()`. -/
  canHibernate : Bool
  /-- Reading `man->canSuspend()`. -/
  canSuspend : Bool
  /-- Reading `tray->isSystemTrayAvailable()`. -/
  systemTrayAvailable : Bool
  /-- Reading `QIcon::themeName()`. -/
  themeName : String
  /-- Reading `pm->HasInhibit()`. -/
  hasInhibit : Bool
  /-- The X display of `xIdle`: `none` when `XOpenDisplay(0)` gives no display, `some v`
  when the display is open, `v` being the field `idle` of the screensaver info after the
  query. -/
  xIdleInfo : Option Int
  /-- The map `Screens::outputs()` in iteration order. -/
  outputs : List (String × Bool)
  /-- Reading `Screens::internal()`. -/
  screensInternal : String
  /-- Reading `xscreensaver->isReadable()`. -/
  xscreensaverReadable : Bool
  settings : Settings
  bus : Bus

/-- The member variables of `SysTray`, the visibility of the tray icon, and the trace of
calls made so far. -/
structure SysTray where
  wasLowBattery : Bool
  wasVeryLowBattery : Bool
  lowBatteryValue : Int
  critBatteryValue : Int
  hasService : Bool
  lidActionBattery : Int
  lidActionAC : Int
  criticalAction : Int
  autoSuspendBattery : Int
  autoSuspendAC : Int
  timeouts : Int
  showNotifications : Bool
  desktopSS : Bool
  desktopPM : Bool
  showTray : Bool
  disableLidOnExternalMonitors : Bool
  autoSuspendBatteryAction : Int
  autoSuspendACAction : Int
  startupScreensaver : Bool
  internalMonitor : String
  ssInhibitors : List (Nat × String)
  pmInhibitors : List (Nat × String)
  /-- Answer of `tray->isVisible()`. -/
  trayVisible : Bool
  trace : List Call

/-- The member initialisers of the constructor `SysTray::SysTray`. -/
def SysTray.init (d : Def) : SysTray where
  wasLowBattery := false
  wasVeryLowBattery := false
  lowBatteryValue := d.LOW_BATTERY
  critBatteryValue := d.CRITICAL_BATTERY
  hasService := false
  lidActionBattery := d.LID_BATTERY_DEFAULT
  lidActionAC := d.LID_AC_DEFAULT
  criticalAction := d.CRITICAL_DEFAULT
  autoSuspendBattery := d.AUTO_SLEEP_BATTERY
  autoSuspendAC := 0
  timeouts := 0
  showNotifications := true
  desktopSS := true
  desktopPM := true
  showTray := true
  disableLidOnExternalMonitors := true
  autoSuspendBatteryAction := d.suspendSleep
  autoSuspendACAction := d.suspendNone
  startupScreensaver := true
  internalMonitor := ""
  ssInhibitors := []
  pmInhibitors := []
  trayVisible := false
  trace := []

/-- Append a call to the trace. -/
def SysTray.emit (s : SysTray) (c : Call) : SysTray :=
  { s with trace := s.trace ++ [c] }

/-- Run `tray->show()`: the icon becomes visible. -/
def trayShow (s : SysTray) : SysTray :=
  { s.emit Call.trayShow with trayVisible := true }

/-- Run `tray->hide()`: the icon becomes invisible. -/
def trayHide (s : SysTray) : SysTray :=
  { s.emit Call.trayHide with trayVisible := false }

/-- `SysTray::showMessage`: display the notification only when the tray icon is visible
and notifications are enabled. -/
def showMessage (s : SysTray) (title : Title) (critical : Bool) : SysTray :=
  let s1 := s.emit (Call.showMessage title critical)
  if s1.trayVisible && s1.showNotifications then
    s1.emit (Call.trayShowMessage title critical)
  else s1

/-- `SysTray::disableHibernate`. -/
def disableHibernate (d : Def) (s : SysTray) : SysTray :=
  let s1 := if s.criticalAction = d.criticalHibernate then
      { s with criticalAction := d.criticalShutdown } else s
  let s2 := if s1.lidActionBattery = d.lidHibernate then
      { s1 with lidActionBattery := d.lidLock } else s1
  let s3 := if s2.lidActionAC = d.lidHibernate then
      { s2 with lidActionAC := d.lidLock } else s2
  let s4 := if s3.autoSuspendBatteryAction = d.suspendHibernate then
      { s3 with autoSuspendBatteryAction := d.suspendNone } else s3
  if s4.autoSuspendACAction = d.suspendHibernate then
    { s4 with autoSuspendACAction := d.suspendNone } else s4

/-- `SysTray::disableSuspend`. -/
def disableSuspend (d : Def) (s : SysTray) : SysTray :=
  let s1 := if s.lidActionBattery = d.lidSleep then
      { s with lidActionBattery := d.lidLock } else s
  let s2 := if s1.lidActionAC = d.lidSleep then
      { s1 with lidActionAC := d.lidLock } else s1
  let s3 := if s2.autoSuspendBatteryAction = d.suspendSleep then
      { s2 with autoSuspendBatteryAction := d.suspendNone } else s2
  if s3.autoSuspendACAction = d.suspendSleep then
    { s3 with autoSuspendACAction := d.suspendNone } else s3

/-- `SysTray::loadSettings`: every key that has a stored value overwrites its member,
then the capability checks coerce the actions, then xscreensaver is started if wanted. -/
def loadSettings (d : Def) (env : Env) (s : SysTray) : SysTray :=
  let c := env.settings
  let s1 : SysTray :=
    { s with
      startupScreensaver :=
        match c.startScreensaver with
        | some v => decide (v ≠ 0)
        | none => s.startupScreensaver
      autoSuspendBattery := c.suspendBatteryTimeout.getD s.autoSuspendBattery
      autoSuspendAC := c.suspendACTimeout.getD s.autoSuspendAC
      autoSuspendBatteryAction := c.suspendBatteryAction.getD s.autoSuspendBatteryAction
      autoSuspendACAction := c.suspendACAction.getD s.autoSuspendACAction
      critBatteryValue := c.criticalBatteryTimeout.getD s.critBatteryValue
      lidActionBattery := c.lidBatteryAction.getD s.lidActionBattery
      lidActionAC := c.lidACAction.getD s.lidActionAC
      criticalAction := c.criticalBatteryAction.getD s.criticalAction
      desktopSS := c.freedesktopSS.getD s.desktopSS
      desktopPM := c.freedesktopPM.getD s.desktopPM
      showNotifications := c.trayNotify.getD s.showNotifications
      showTray := c.trayShow.getD s.showTray
      disableLidOnExternalMonitors :=
        c.lidDisableIfExternal.getD s.disableLidOnExternalMonitors }
  let s2 := if !env.kernelCanResume then disableHibernate d s1 else s1
  let s3 := if !env.canHibernate then disableHibernate d s2 else s2
  let s4 := if !env.canSuspend then disableSuspend d s3 else s3
  if s4.startupScreensaver && !env.xscreensaverReadable then
    s4.emit Call.startXscreensaver
  else s4

/-- `SysTray::handleConfChanged`. -/
def handleConfChanged (d : Def) (env : Env) (s : SysTray) : SysTray :=
  loadSettings d env s

/-- `SysTray::registerService`: `hasService` becomes true only when every registration
went through. -/
def registerService (env : Env) (s : SysTray) : SysTray :=
  if s.hasService then s
  else if !env.bus.connected then s
  else if s.desktopPM && !env.bus.pmService then s
  else if s.desktopPM && !env.bus.pmObject then s
  else if s.desktopSS && !env.bus.ssService then s
  else if s.desktopSS && !env.bus.ssObject then s
  else if !env.bus.pdService then s
  else if !env.bus.pdObject then s
  else { s with hasService := true }

/-- `SysTray::resetTimer`. -/
def resetTimer (s : SysTray) : SysTray :=
  { s with timeouts := 0 }

/-- `SysTray::handleHasInhibitChanged`. -/
def handleHasInhibitChanged (has_inhibit : Bool) (s : SysTray) : SysTray :=
  if has_inhibit then resetTimer s else s

/-- `SysTray::handleLow`. -/
def handleLow (env : Env) (left : ℚ) (s : SysTray) : SysTray :=
  let batteryLow : ℚ := ((wrap32 (s.lowBatteryValue + s.critBatteryValue) : Int) : ℚ)
  if left ≤ batteryLow ∧ env.onBattery = true then
    if !s.wasLowBattery then
      { showMessage s (Title.lowBattery left) true with wasLowBattery := true }
    else s
  else s

/-- `SysTray::handleVeryLow`. -/
def handleVeryLow (env : Env) (left : ℚ) (s : SysTray) : SysTray :=
  let batteryVeryLow : ℚ := ((wrap32 (s.critBatteryValue + 1) : Int) : ℚ)
  if left ≤ batteryVeryLow ∧ env.onBattery = true then
    if !s.wasVeryLowBattery then
      { showMessage s (Title.veryLowBattery left) true with wasVeryLowBattery := true }
    else s
  else s

/-- `SysTray::handleCritical`. -/
def handleCritical (d : Def) (s : SysTray) : SysTray :=
  if s.criticalAction = d.criticalHibernate then s.emit Call.hibernate
  else if s.criticalAction = d.criticalShutdown then s.emit Call.shutdown
  else s

/-- The icon `drawBattery` picks for a non-zero percentage. -/
def batteryIcon (onBattery : Bool) (left : ℚ) : Icon :=
  if left ≤ 10 then (if onBattery then Icon.crit else Icon.critAC)
  else if left ≤ 25 then (if onBattery then Icon.low else Icon.lowAC)
  else if left ≤ 75 then (if onBattery then Icon.good else Icon.goodAC)
  else if left ≤ 90 then (if onBattery then Icon.full else Icon.fullAC)
  else (if onBattery then Icon.full else Icon.charged)

/-- `SysTray::drawBattery`. -/
def drawBattery (env : Env) (left : ℚ) (s : SysTray) : SysTray :=
  if !s.showTray && s.trayVisible then trayHide s
  else
    let s1 := if env.systemTrayAvailable && !s.trayVisible && s.showTray then trayShow s
      else s
    if left = 0 then s1.emit (Call.setIcon Icon.ac)
    else s1.emit (Call.setIcon (batteryIcon env.onBattery left))

/-- The part of `checkDevices` under `// show/hide tray`. -/
def showHideTray (env : Env) (s : SysTray) : SysTray :=
  let s1 := if env.systemTrayAvailable && !s.trayVisible && s.showTray then trayShow s
    else s
  if !s1.showTray && s1.trayVisible then trayHide s1 else s1

/-- The part of `checkDevices` under `// warn if systray has no icons`. -/
def warnIconTheme (env : Env) (s : SysTray) : SysTray :=
  if s.trayVisible && (env.themeName.isEmpty || env.themeName == "hicolor") then
    showMessage s Title.noIconTheme true
  else s

/-- The part of `checkDevices` under `// get battery left and add tooltip`. -/
def updateToolTip (env : Env) (batteryLeft : ℚ) (s : SysTray) : SysTray :=
  if 0 < batteryLeft then
    let s1 := s.emit (Call.setToolTip (ToolTip.batteryAt batteryLeft))
    let s2 := if 99 < batteryLeft then s1.emit (Call.setToolTip ToolTip.charged) else s1
    if env.onBattery = false ∧ env.batteryLeft ≤ 99 then
      s2.emit (Call.setToolTip
        (ToolTip.charging (if 99 < batteryLeft then ToolTip.charged
          else ToolTip.batteryAt batteryLeft)))
    else s2
  else s.emit (Call.setToolTip ToolTip.onAC)

/-- The part of `checkDevices` under `// critical battery?`. -/
def checkCritical (d : Def) (env : Env) (batteryLeft : ℚ) (s : SysTray) : SysTray :=
  if 0 < batteryLeft ∧ batteryLeft ≤ ((s.critBatteryValue : Int) : ℚ) ∧
      env.onBattery = true then handleCritical d s
  else s

/-- `SysTray::checkDevices`. -/
def checkDevices (d : Def) (env : Env) (s : SysTray) : SysTray :=
  let s1 := showHideTray env s
  let s2 := warnIconTheme env s1
  let batteryLeft := env.batteryLeft
  let s3 := updateToolTip env batteryLeft s2
  let s4 := drawBattery env batteryLeft s3
  let s5 := handleLow env batteryLeft s4
  let s6 := handleVeryLow env batteryLeft s5
  let s7 := checkCritical d env batteryLeft s6
  if !s7.hasService then registerService env s7 else s7

/-- The loop of `SysTray::externalMonitorIsConnected` over the outputs. -/
def externalMonitorLoop (d : Def) (internalMonitor : String) :
    List (String × Bool) → Bool
  | [] => false
  | (key, value) :: rest =>
    if key ≠ internalMonitor ∧ startsWith key d.VIRTUAL_MONITOR = false then
      if value then true else externalMonitorLoop d internalMonitor rest
    else externalMonitorLoop d internalMonitor rest

/-- `SysTray::externalMonitorIsConnected`. -/
def externalMonitorIsConnected (d : Def) (env : Env) (s : SysTray) : Bool :=
  externalMonitorLoop d s.internalMonitor env.outputs

/-- The loop of `SysTray::internalMonitorIsConnected` over the outputs. -/
def internalMonitorLoop (internalMonitor : String) : List (String × Bool) → Bool
  | [] => false
  | (key, value) :: rest =>
    if key = internalMonitor then value else internalMonitorLoop internalMonitor rest

/-- `SysTray::internalMonitorIsConnected`. -/
def internalMonitorIsConnected (env : Env) (s : SysTray) : Bool :=
  internalMonitorLoop s.internalMonitor env.outputs

/-- `SysTray::setInternalMonitor`. -/
def setInternalMonitor (env : Env) (s : SysTray) : SysTray :=
  { s with internalMonitor := env.screensInternal }

/-- `SysTray::handleClosedLid`. -/
def handleClosedLid (d : Def) (env : Env) (s : SysTray) : SysTray :=
  let type := if env.onBattery then s.lidActionBattery else s.lidActionAC
  if s.disableLidOnExternalMonitors && externalMonitorIsConnected d env s then s
  else if type = d.lidLock then s.emit Call.lockScreen
  else if type = d.lidSleep then s.emit Call.sleep
  else if type = d.lidHibernate then s.emit Call.hibernate
  else if type = d.lidShutdown then s.emit Call.shutdown
  else s

/-- `SysTray::handleOpenedLid`. -/
def handleOpenedLid (s : SysTray) : SysTray := s

/-- `SysTray::handleOnBattery`. -/
def handleOnBattery (s : SysTray) : SysTray :=
  showMessage s Title.onBattery false

/-- `SysTray::handleOnAC`. -/
def handleOnAC (s : SysTray) : SysTray :=
  { showMessage s Title.onAC false with
    wasLowBattery := false
    wasVeryLowBattery := false }

/-- `SysTray::xIdle`; `none` when the run aborts. The call `XCloseDisplay(display)`
stands outside the test `display != 0`, so without a display the null pointer goes to
Xlib, which dereferences it. With a display (the allocation of the info is taken to
succeed), `idle` is a 64-bit `long`, `hours` and `minutes` are `int`, and the product
`hours*1000*60*60` is computed in `int`. -/
def xIdle (env : Env) : Option Int :=
  match env.xIdleInfo with
  | none => none
  | some v =>
    let idle : Int := wrap64 v
    let hours := wrap32 (Int.tdiv idle (1000 * 60 * 60))
    let ms := wrap32 (wrap32 (wrap32 (hours * 1000) * 60) * 60)
    some (wrap32 (Int.tdiv (wrap64 (idle - ms)) (1000 * 60)))

/-- The first two statements of `SysTray::timeout`: hide or show the tray icon. -/
def timeoutTray (env : Env) (s : SysTray) : SysTray :=
  let s1 := if !s.showTray && s.trayVisible then trayHide s else s
  if env.systemTrayAvailable && !s1.trayVisible && s1.showTray then trayShow s1 else s1

/-- The rest of `SysTray::timeout`, from `int autoSuspend = 0;` on, with `uIdle` the
value `xIdle()` returned. -/
def timeoutSuspend (d : Def) (env : Env) (uIdle : Int) (s : SysTray) : SysTray :=
  let autoSuspend := if env.onBattery then s.autoSuspendBattery else s.autoSuspendAC
  let autoSuspendAction :=
    if env.onBattery then s.autoSuspendBatteryAction else s.autoSuspendACAction
  let doSuspend : Bool :=
    decide (0 < autoSuspend) && decide (autoSuspend ≤ s.timeouts) &&
      decide (autoSuspend ≤ uIdle) && !env.hasInhibit
  if !doSuspend then { s with timeouts := wrap32 (s.timeouts + 1) }
  else
    let s3 := { s with timeouts := 0 }
    if autoSuspendAction = d.suspendSleep then s3.emit Call.sleep
    else if autoSuspendAction = d.suspendHibernate then s3.emit Call.hibernate
    else if autoSuspendAction = d.suspendShutdown then s3.emit Call.shutdown
    else s3

/-- `SysTray::timeout`; `none` when the run aborts in `xIdle()`. -/
def timeout (d : Def) (env : Env) (s : SysTray) : Option SysTray :=
  let s2 := timeoutTray env s
  match xIdle env with
  | none => none
  | some uIdle => some (timeoutSuspend d env uIdle s2)

/-- The assignment `map[cookie] = application` on a `QMap`. -/
def mapInsert (m : List (Nat × String)) (cookie : Nat) (application : String) :
    List (Nat × String) :=
  (cookie, application) :: m.filter (fun e => e.1 ≠ cookie)

/-- The calls `map.contains(cookie)` then `map.remove(cookie)` on a `QMap`. -/
def mapRemove (m : List (Nat × String)) (cookie : Nat) : List (Nat × String) :=
  m.filter (fun e => e.1 ≠ cookie)

/-- `SysTray::handleNewInhibitScreenSaver`. -/
def handleNewInhibitScreenSaver (application : String) (cookie : Nat) (s : SysTray) :
    SysTray :=
  { s with ssInhibitors := mapInsert s.ssInhibitors cookie application }

/-- `SysTray::handleNewInhibitPowerManagement`. -/
def handleNewInhibitPowerManagement (application : String) (cookie : Nat) (s : SysTray) :
    SysTray :=
  { s with pmInhibitors := mapInsert s.pmInhibitors cookie application }

/-- `SysTray::handleDelInhibitScreenSaver`. -/
def handleDelInhibitScreenSaver (cookie : Nat) (s : SysTray) : SysTray :=
  { s with ssInhibitors := mapRemove s.ssInhibitors cookie }

/-- `SysTray::handleDelInhibitPowerManagement`. -/
def handleDelInhibitPowerManagement (cookie : Nat) (s : SysTray) : SysTray :=
  { s with pmInhibitors := mapRemove s.pmInhibitors cookie }

/-- `SysTray::trayActivated`. -/
def trayActivated (s : SysTray) : SysTray :=
  s.emit Call.startConfig

/-- `SysTray::handleScreensaverFinished`. -/
def handleScreensaverFinished (s : SysTray) : SysTray := s

/-- The member functions of `SysTray` that change or may change its state, with the
arguments they are called with. A run of `timeout` comes with the value its call of
`xIdle()` returned; a run in which `xIdle()` aborts leaves no state behind. -/
inductive Handler where
  | trayActivated
  | checkDevices
  | handleClosedLid
  | handleOpenedLid
  | handleOnBattery
  | handleOnAC
  | loadSettings
  | registerService
  | handleHasInhibitChanged (has_inhibit : Bool)
  | handleLow (left : ℚ)
  | handleVeryLow (left : ℚ)
  | handleCritical
  | drawBattery (left : ℚ)
  | timeout (uIdle : Int)
  | resetTimer
  | setInternalMonitor
  | handleNewInhibitScreenSaver (application : String) (cookie : Nat)
  | handleNewInhibitPowerManagement (application : String) (cookie : Nat)
  | handleDelInhibitScreenSaver (cookie : Nat)
  | handleDelInhibitPowerManagement (cookie : Nat)
  | handleScreensaverFinished
  | showMessage (title : Title) (critical : Bool)
  | handleConfChanged
  | disableHibernate
  | disableSuspend
  deriving DecidableEq

/-- The state after a run of one member function. -/
def runHandler (d : Def) (env : Env) : Handler → SysTray → SysTray
  | Handler.trayActivated => trayActivated
  | Handler.checkDevices => checkDevices d env
  | Handler.handleClosedLid => handleClosedLid d env
  | Handler.handleOpenedLid => handleOpenedLid
  | Handler.handleOnBattery => handleOnBattery
  | Handler.handleOnAC => handleOnAC
  | Handler.loadSettings => loadSettings d env
  | Handler.registerService => registerService env
  | Handler.handleHasInhibitChanged has_inhibit => handleHasInhibitChanged has_inhibit
  | Handler.handleLow left => handleLow env left
  | Handler.handleVeryLow left => handleVeryLow env left
  | Handler.handleCritical => handleCritical d
  | Handler.drawBattery left => drawBattery env left
  | Handler.timeout uIdle => fun s => timeoutSuspend d env uIdle (timeoutTray env s)
  | Handler.resetTimer => resetTimer
  | Handler.setInternalMonitor => setInternalMonitor env
  | Handler.handleNewInhibitScreenSaver application cookie =>
      handleNewInhibitScreenSaver application cookie
  | Handler.handleNewInhibitPowerManagement application cookie =>
      handleNewInhibitPowerManagement application cookie
  | Handler.handleDelInhibitScreenSaver cookie => handleDelInhibitScreenSaver cookie
  | Handler.handleDelInhibitPowerManagement cookie => handleDelInhibitPowerManagement cookie
  | Handler.handleScreensaverFinished => handleScreensaverFinished
  | Handler.showMessage title critical => fun s => showMessage s title critical
  | Handler.handleConfChanged => handleConfChanged d env
  | Handler.disableHibernate => disableHibernate d
  | Handler.disableSuspend => disableSuspend d

/-- Feed the battery samples to `handleLow`, one after the other. -/
def runLow (env : Env) (samples : List ℚ) (s : SysTray) : SysTray :=
  samples.foldl (fun t left => handleLow env left t) s

/-- Feed the battery samples to `handleVeryLow`, one after the other. -/
def runVeryLow (env : Env) (samples : List ℚ) (s : SysTray) : SysTray :=
  samples.foldl (fun t left => handleVeryLow env left t) s

/-! ## Sample inputs -/

/-- A stored configuration without any value. -/
def emptySettings : Settings where
  startScreensaver := none
  suspendBatteryTimeout := none
  suspendACTimeout := none
  suspendBatteryAction := none
  suspendACAction := none
  criticalBatteryTimeout := none
  lidBatteryAction := none
  lidACAction := none
  criticalBatteryAction := none
  freedesktopSS := none
  freedesktopPM := none
  trayNotify := none
  trayShow := none
  lidDisableIfExternal := none

/-- A stored configuration that asks for hibernate or sleep in every action slot. -/
def hibernateSettings : Settings :=
  { emptySettings with
    suspendBatteryAction := some 1
    suspendACAction := some 2
    lidBatteryAction := some 3
    lidACAction := some 2
    criticalBatteryAction := some 1 }

/-- A session bus on which every registration succeeds. -/
def goodBus : Bus where
  connected := true
  pmService := true
  pmObject := true
  ssService := true
  ssObject := true
  pdService := true
  pdObject := true

/-- A laptop on battery at 5 percent, every capability present, one internal panel and a
disconnected external output. -/
def sampleEnv : Env where
  onBattery := true
  batteryLeft := 5
  kernelCanResume := true
  canHibernate := true
  canSuspend := true
  systemTrayAvailable := true
  themeName := "Adwaita"
  hasInhibit := false
  xIdleInfo := some 0
  outputs := [("HDMI1", false), ("LVDS1", true)]
  screensInternal := "LVDS1"
  xscreensaverReadable := true
  settings := emptySettings
  bus := goodBus

/-! ## Reading the trace -/

/-- The call is one of the actions of the power manager `man`. -/
def Call.isPowerAction : Call → Bool
  | Call.lockScreen => true
  | Call.sleep => true
  | Call.hibernate => true
  | Call.shutdown => true
  | _ => false

/-- The power actions of a trace, in order. -/
def powerActions (t : List Call) : List Call := t.filter Call.isPowerAction

/-- The call is `showMessage` with the low-battery title. -/
def Call.isLowNotification : Call → Bool
  | Call.showMessage (Title.lowBattery _) _ => true
  | _ => false

/-- The call is `showMessage` with the very-low-battery title. -/
def Call.isVeryLowNotification : Call → Bool
  | Call.showMessage (Title.veryLowBattery _) _ => true
  | _ => false

/-- The low-battery notifications of a trace, in order. -/
def lowNotifications (t : List Call) : List Call := t.filter Call.isLowNotification

/-- The very-low-battery notifications of a trace, in order. -/
def veryLowNotifications (t : List Call) : List Call :=
  t.filter Call.isVeryLowNotification

/-- The step from `s` to `t` leaves the battery flags, the thresholds and the critical
action alone and adds no power action to the trace. -/
def Frame (s t : SysTray) : Prop :=
  t.wasLowBattery = s.wasLowBattery ∧ t.wasVeryLowBattery = s.wasVeryLowBattery ∧
  t.lowBatteryValue = s.lowBatteryValue ∧ t.critBatteryValue = s.critBatteryValue ∧
  t.criticalAction = s.criticalAction ∧ t.showNotifications = s.showNotifications ∧
  powerActions t.trace = powerActions s.trace

/-! ## Ticks of the idle timer -/

/-- The calls the `switch (autoSuspendAction)` of `timeout` makes for the action value
`a`. -/
def suspendCalls (d : Def) (a : Int) : List Call :=
  if a = d.suspendSleep then [Call.sleep]
  else if a = d.suspendHibernate then [Call.hibernate]
  else if a = d.suspendShutdown then [Call.shutdown]
  else []

/-- Run `timeout` once for every tick of the timer, in order; each tick comes with what
the collaborators answer at that tick. The result is `none` when one of the runs
aborts. -/
def runTimeout (d : Def) : List Env → SysTray → Option SysTray
  | [], s => some s
  | env :: rest, s =>
    match timeout d env s with
    | none => none
    | some t => runTimeout d rest t

/-- The display is open at this tick and `xIdle()` returns at least `n` minutes. -/
def SampledIdleAtLeast (n : Int) (env : Env) : Prop :=
  match xIdle env with
  | some m => n ≤ m
  | none => False

instance (n : Int) (env : Env) : Decidable (SampledIdleAtLeast n env) := by
  unfold SampledIdleAtLeast
  split <;> infer_instance

/-- The display is open at this tick and the idle time the X server reports is
non-negative and below 597 hours, the first value at which the `int` product
`hours*1000*60*60` of `xIdle` overflows. -/
def IdleBelowOverflow (env : Env) : Prop :=
  match env.xIdleInfo with
  | some v => 0 ≤ v ∧ v < 2149200000
  | none => False

instance (env : Env) : Decidable (IdleBelowOverflow env) := by
  unfold IdleBelowOverflow
  split <;> infer_instance

/-- The call is `tray->showMessage` with the low-battery title: the notification is
really displayed. -/
def Call.isLowDisplayed : Call → Bool
  | Call.trayShowMessage (Title.lowBattery _) _ => true
  | _ => false

/-- The low-battery notifications a trace displayed, in order. -/
def displayedLow (t : List Call) : List Call := t.filter Call.isLowDisplayed

/-- The call is `tray->showMessage`: a notification is really displayed. -/
def Call.isDisplayed : Call → Bool
  | Call.trayShowMessage _ _ => true
  | _ => false

/-- The notifications a trace displayed, in order. -/
def displayed (t : List Call) : List Call := t.filter Call.isDisplayed

/-- A state with low = 20 and critical = 5 whose tray icon is visible while the
notifications are switched off. -/
def mutedState : SysTray :=
  { SysTray.init sampleDef with showNotifications := false, trayVisible := true }

/-- A reload of the configuration that switches the notifications on. -/
def notifyOnEnv : Env :=
  { sampleEnv with settings := { emptySettings with trayNotify := some true } }

/-! ## The capability probes of `src/lib/login1.cpp` -/

/-- The query methods of the login manager that `Login1` calls (`LOGIN1_CAN_REBOOT`,
`LOGIN1_CAN_POWEROFF`, `LOGIN1_CAN_SUSPEND`, `LOGIN1_CAN_HIBERNATE` of `def.h`). -/
inductive Login1Method where
  | canReboot
  | canPowerOff
  | canSuspend
  | canHibernate
  deriving DecidableEq

/-- What the system bus gives one run of a `Login1` probe: whether the `QDBusInterface`
is valid and, for each query, the list `reply.arguments()`, every argument as its
`toString()` renders it. -/
structure SystemBus where
  ifaceValid : Bool
  arguments : Login1Method → List String

/-- `QList::first()`. Qt requires the list not to be empty; on an empty list the call is
an assertion failure or undefined behaviour, which is the result `none`. -/
def qlistFirst {α : Type} : List α → Option α
  | [] => none
  | a :: _ => some a

/-- `Login1::hasService`. -/
def Login1.hasService (bus : SystemBus) : Bool :=
  if bus.ifaceValid then true else false

/-- `Login1::canPowerOff`; `none` when the run aborts. -/
def Login1.canPowerOff (bus : SystemBus) : Option Bool :=
  if !bus.ifaceValid then some false
  else
    match qlistFirst (bus.arguments Login1Method.canPowerOff) with
    | none => none
    | some first => if first = "yes" then some true else some false

/-- `Login1::canSuspend`; `none` when the run aborts. -/
def Login1.canSuspend (bus : SystemBus) : Option Bool :=
  if !bus.ifaceValid then some false
  else
    match qlistFirst (bus.arguments Login1Method.canSuspend) with
    | none => none
    | some first => if first = "yes" then some true else some false

/-- `Login1::canHibernate`; `none` when the run aborts. -/
def Login1.canHibernate (bus : SystemBus) : Option Bool :=
  if !bus.ifaceValid then some false
  else
    match qlistFirst (bus.arguments Login1Method.canHibernate) with
    | none => none
    | some first => if first = "yes" then some true else some false

/-- A tick with the user idle for five minutes, on battery, without inhibit. -/
def idleTick : Env :=
  { sampleEnv with xIdleInfo := some 300000 }

/-! ## Helper lemmas -/

/-- Replace the value `h` by `t` and keep every other value. -/
def coerce (h t x : Int) : Int := if x = h then t else x

theorem coerce_idem (h t x : Int) : coerce h t (coerce h t x) = coerce h t x := by
  unfold coerce; split_ifs <;> simp_all

theorem coerce_ne (h t x : Int) (ht : t ≠ h) : coerce h t x ≠ h := by
  unfold coerce; split_ifs <;> simp_all

theorem disableHibernate_eq (d : Def) (s : SysTray) :
    disableHibernate d s =
      { s with
        criticalAction := coerce d.criticalHibernate d.criticalShutdown s.criticalAction
        lidActionBattery := coerce d.lidHibernate d.lidLock s.lidActionBattery
        lidActionAC := coerce d.lidHibernate d.lidLock s.lidActionAC
        autoSuspendBatteryAction :=
          coerce d.suspendHibernate d.suspendNone s.autoSuspendBatteryAction
        autoSuspendACAction :=
          coerce d.suspendHibernate d.suspendNone s.autoSuspendACAction } := by
  by_cases h1 : s.criticalAction = d.criticalHibernate <;>
  by_cases h2 : s.lidActionBattery = d.lidHibernate <;>
  by_cases h3 : s.lidActionAC = d.lidHibernate <;>
  by_cases h4 : s.autoSuspendBatteryAction = d.suspendHibernate <;>
  by_cases h5 : s.autoSuspendACAction = d.suspendHibernate <;>
  simp [disableHibernate, coerce, h1, h2, h3, h4, h5]

theorem disableSuspend_eq (d : Def) (s : SysTray) :
    disableSuspend d s =
      { s with
        lidActionBattery := coerce d.lidSleep d.lidLock s.lidActionBattery
        lidActionAC := coerce d.lidSleep d.lidLock s.lidActionAC
        autoSuspendBatteryAction :=
          coerce d.suspendSleep d.suspendNone s.autoSuspendBatteryAction
        autoSuspendACAction :=
          coerce d.suspendSleep d.suspendNone s.autoSuspendACAction } := by
  by_cases h2 : s.lidActionBattery = d.lidSleep <;>
  by_cases h3 : s.lidActionAC = d.lidSleep <;>
  by_cases h4 : s.autoSuspendBatteryAction = d.suspendSleep <;>
  by_cases h5 : s.autoSuspendACAction = d.suspendSleep <;>
  simp [disableSuspend, coerce, h2, h3, h4, h5]

theorem Def.EnumsDistinct.lid {d : Def} (hd : d.EnumsDistinct) :
    d.lidLock ≠ d.lidSleep ∧ d.lidLock ≠ d.lidHibernate ∧ d.lidLock ≠ d.lidShutdown ∧
    d.lidSleep ≠ d.lidHibernate ∧ d.lidSleep ≠ d.lidShutdown ∧
    d.lidHibernate ≠ d.lidShutdown := by
  have h := hd.1
  simp only [List.nodup_cons, List.mem_cons, List.mem_singleton, not_or] at h
  tauto

theorem Def.EnumsDistinct.critical {d : Def} (hd : d.EnumsDistinct) :
    d.criticalHibernate ≠ d.criticalShutdown := by
  have h := hd.2.1
  simp only [List.nodup_cons, List.mem_cons, List.mem_singleton, not_or] at h
  tauto

theorem Def.EnumsDistinct.suspend {d : Def} (hd : d.EnumsDistinct) :
    d.suspendNone ≠ d.suspendSleep ∧ d.suspendNone ≠ d.suspendHibernate ∧
    d.suspendSleep ≠ d.suspendHibernate ∧ d.suspendSleep ≠ d.suspendShutdown ∧
    d.suspendHibernate ≠ d.suspendShutdown := by
  have h := hd.2.2
  simp only [List.nodup_cons, List.mem_cons, List.mem_singleton, not_or] at h
  tauto

theorem sampleDef_distinct : sampleDef.EnumsDistinct := by
  decide

/-- The five action slots after `loadSettings`, in closed form: the stored value (or the
previous one), coerced by the capability checks that ran. -/
theorem loadSettings_slots (d : Def) (env : Env) (s : SysTray) :
    let h := fun (hib t x : Int) =>
      if env.kernelCanResume = false ∨ env.canHibernate = false then coerce hib t x else x
    let z := fun (sl t x : Int) => if env.canSuspend = false then coerce sl t x else x
    (loadSettings d env s).criticalAction =
        h d.criticalHibernate d.criticalShutdown
          (env.settings.criticalBatteryAction.getD s.criticalAction) ∧
    (loadSettings d env s).lidActionBattery =
        z d.lidSleep d.lidLock (h d.lidHibernate d.lidLock
          (env.settings.lidBatteryAction.getD s.lidActionBattery)) ∧
    (loadSettings d env s).lidActionAC =
        z d.lidSleep d.lidLock (h d.lidHibernate d.lidLock
          (env.settings.lidACAction.getD s.lidActionAC)) ∧
    (loadSettings d env s).autoSuspendBatteryAction =
        z d.suspendSleep d.suspendNone (h d.suspendHibernate d.suspendNone
          (env.settings.suspendBatteryAction.getD s.autoSuspendBatteryAction)) ∧
    (loadSettings d env s).autoSuspendACAction =
        z d.suspendSleep d.suspendNone (h d.suspendHibernate d.suspendNone
          (env.settings.suspendACAction.getD s.autoSuspendACAction)) := by
  cases hk : env.kernelCanResume <;> cases hh : env.canHibernate <;>
  cases hs : env.canSuspend <;>
  simp [loadSettings, disableHibernate_eq, disableSuspend_eq, hk, hh, hs, SysTray.emit,
    apply_ite, coerce_idem]

theorem coerce_pair_idem (h z t x : Int) :
    coerce z t (coerce h t (coerce z t (coerce h t x))) = coerce z t (coerce h t x) := by
  unfold coerce; split_ifs <;> simp_all

theorem coerce_pair_ne (h z t x : Int) (ht : t ≠ h) (hz : z ≠ h) :
    coerce z t (coerce h t x) ≠ h := by
  unfold coerce; split_ifs <;> simp_all

/-! ## Capability coercion (C1 to C3) -/

/-- C1: after `loadSettings` ran with hibernate unsupported (`canHibernate` false or the
kernel cannot resume), none of the five action slots holds its Hibernate value, and after
`loadSettings` ran with `canSuspend` false, none of the two lid slots and two auto-suspend
slots holds its Sleep value; this for every stored configuration and every earlier state. -/
theorem loadSettings_coercion_invariant (d : Def) (hd : d.EnumsDistinct) (env : Env)
    (s : SysTray) :
    ((env.canHibernate = false ∨ env.kernelCanResume = false) →
      (loadSettings d env s).criticalAction ≠ d.criticalHibernate ∧
      (loadSettings d env s).lidActionBattery ≠ d.lidHibernate ∧
      (loadSettings d env s).lidActionAC ≠ d.lidHibernate ∧
      (loadSettings d env s).autoSuspendBatteryAction ≠ d.suspendHibernate ∧
      (loadSettings d env s).autoSuspendACAction ≠ d.suspendHibernate) ∧
    (env.canSuspend = false →
      (loadSettings d env s).lidActionBattery ≠ d.lidSleep ∧
      (loadSettings d env s).lidActionAC ≠ d.lidSleep ∧
      (loadSettings d env s).autoSuspendBatteryAction ≠ d.suspendSleep ∧
      (loadSettings d env s).autoSuspendACAction ≠ d.suspendSleep) := by
  obtain ⟨e1, e2, e3, e4, e5⟩ := loadSettings_slots d env s
  obtain ⟨l1, l2, -, l4, -, -⟩ := hd.lid
  obtain ⟨n1, n2, n3, -, -⟩ := hd.suspend
  have c1 := hd.critical
  constructor
  · intro hh
    have hh' : env.kernelCanResume = false ∨ env.canHibernate = false := hh.symm
    rw [e1, e2, e3, e4, e5]
    simp only [hh', if_true]
    refine ⟨coerce_ne _ _ _ c1.symm, ?_, ?_, ?_, ?_⟩
    · split_ifs
      · exact coerce_pair_ne _ _ _ _ l2 l4
      · exact coerce_ne _ _ _ l2
    · split_ifs
      · exact coerce_pair_ne _ _ _ _ l2 l4
      · exact coerce_ne _ _ _ l2
    · split_ifs
      · exact coerce_pair_ne _ _ _ _ n2 n3
      · exact coerce_ne _ _ _ n2
    · split_ifs
      · exact coerce_pair_ne _ _ _ _ n2 n3
      · exact coerce_ne _ _ _ n2
  · intro hs
    rw [e2, e3, e4, e5]
    simp only [hs, if_true]
    exact ⟨coerce_ne _ _ _ l1, coerce_ne _ _ _ l1, coerce_ne _ _ _ n1, coerce_ne _ _ _ n1⟩

/-- Witness of C1: the stored configuration asks for hibernate or sleep in every slot and
the host supports neither. -/
theorem loadSettings_coercion_invariant_witness :
    sampleDef.EnumsDistinct ∧
    (let env := { sampleEnv with
        canHibernate := false, canSuspend := false, settings := hibernateSettings }
     let s := loadSettings sampleDef env (SysTray.init sampleDef)
     (s.criticalAction ≠ 1 ∧ s.lidActionBattery ≠ 3 ∧ s.lidActionAC ≠ 3 ∧
       s.autoSuspendBatteryAction ≠ 2 ∧ s.autoSuspendACAction ≠ 2) ∧
     (s.lidActionBattery ≠ 2 ∧ s.lidActionAC ≠ 2 ∧
       s.autoSuspendBatteryAction ≠ 1 ∧ s.autoSuspendACAction ≠ 1)) :=
  ⟨sampleDef_distinct,
    (loadSettings_coercion_invariant sampleDef sampleDef_distinct
      { sampleEnv with
        canHibernate := false, canSuspend := false, settings := hibernateSettings }
      (SysTray.init sampleDef)).1 (Or.inl rfl),
    (loadSettings_coercion_invariant sampleDef sampleDef_distinct
      { sampleEnv with
        canHibernate := false, canSuspend := false, settings := hibernateSettings }
      (SysTray.init sampleDef)).2 rfl⟩

/-- Counterexample to C2 as stated: a lid slot and an auto-suspend slot that hold
Hibernate do not hold Shutdown after `disableHibernate`; they hold Lock and None. -/
theorem disableHibernate_not_all_shutdown :
    let s := { SysTray.init sampleDef with
      lidActionBattery := sampleDef.lidHibernate
      autoSuspendBatteryAction := sampleDef.suspendHibernate }
    (s.lidActionBattery = sampleDef.lidHibernate ∧
      (disableHibernate sampleDef s).lidActionBattery ≠ sampleDef.lidShutdown ∧
      (disableHibernate sampleDef s).lidActionBattery = sampleDef.lidLock) ∧
    (s.autoSuspendBatteryAction = sampleDef.suspendHibernate ∧
      (disableHibernate sampleDef s).autoSuspendBatteryAction ≠ sampleDef.suspendShutdown ∧
      (disableHibernate sampleDef s).autoSuspendBatteryAction = sampleDef.suspendNone) := by
  decide

/-- C2, amended: `disableHibernate` replaces Hibernate by Shutdown in `criticalAction`,
by Lock in `lidActionBattery` and `lidActionAC`, and by None in
`autoSuspendBatteryAction` and `autoSuspendACAction`; a slot that does not hold Hibernate
keeps its value. -/
theorem disableHibernate_fallbacks (d : Def) (s : SysTray) :
    (disableHibernate d s).criticalAction =
      (if s.criticalAction = d.criticalHibernate then d.criticalShutdown
        else s.criticalAction) ∧
    (disableHibernate d s).lidActionBattery =
      (if s.lidActionBattery = d.lidHibernate then d.lidLock else s.lidActionBattery) ∧
    (disableHibernate d s).lidActionAC =
      (if s.lidActionAC = d.lidHibernate then d.lidLock else s.lidActionAC) ∧
    (disableHibernate d s).autoSuspendBatteryAction =
      (if s.autoSuspendBatteryAction = d.suspendHibernate then d.suspendNone
        else s.autoSuspendBatteryAction) ∧
    (disableHibernate d s).autoSuspendACAction =
      (if s.autoSuspendACAction = d.suspendHibernate then d.suspendNone
        else s.autoSuspendACAction) := by
  rw [disableHibernate_eq]
  simp [coerce]

/-- C3: the capability coercion is idempotent: `disableHibernate` twice is
`disableHibernate` once, `disableSuspend` twice is `disableSuspend` once, and
`disableHibernate` then `disableSuspend` applied twice is the pair applied once. -/
theorem coercion_idempotent (d : Def) (c : SysTray) :
    disableHibernate d (disableHibernate d c) = disableHibernate d c ∧
    disableSuspend d (disableSuspend d c) = disableSuspend d c ∧
    disableSuspend d (disableHibernate d (disableSuspend d (disableHibernate d c))) =
      disableSuspend d (disableHibernate d c) := by
  simp only [disableHibernate_eq, disableSuspend_eq, coerce_idem, coerce_pair_idem,
    and_self]

/-! ## Frame lemmas for the steps of `checkDevices` -/

theorem Frame.refl (s : SysTray) : Frame s s := by
  simp [Frame]

theorem Frame.trans {s t u : SysTray} (h1 : Frame s t) (h2 : Frame t u) : Frame s u := by
  obtain ⟨a1, a2, a3, a4, a5, a6, a7⟩ := h1
  obtain ⟨b1, b2, b3, b4, b5, b6, b7⟩ := h2
  exact ⟨b1.trans a1, b2.trans a2, b3.trans a3, b4.trans a4, b5.trans a5, b6.trans a6,
    b7.trans a7⟩

theorem powerActions_append (t u : List Call) :
    powerActions (t ++ u) = powerActions t ++ powerActions u := by
  simp [powerActions]

theorem trayShow_frame (s : SysTray) : Frame s (trayShow s) := by
  simp [Frame, trayShow, SysTray.emit, powerActions, Call.isPowerAction]

theorem trayHide_frame (s : SysTray) : Frame s (trayHide s) := by
  simp [Frame, trayHide, SysTray.emit, powerActions, Call.isPowerAction]

theorem showMessage_frame (s : SysTray) (title : Title) (critical : Bool) :
    Frame s (showMessage s title critical) := by
  unfold showMessage
  dsimp only
  split_ifs <;> simp [Frame, SysTray.emit, powerActions, Call.isPowerAction]

theorem showHideTray_frame (env : Env) (s : SysTray) : Frame s (showHideTray env s) := by
  unfold showHideTray
  dsimp only
  split_ifs
  · exact (trayShow_frame s).trans (trayHide_frame _)
  · exact trayShow_frame s
  · exact trayHide_frame s
  · exact Frame.refl s

theorem warnIconTheme_frame (env : Env) (s : SysTray) : Frame s (warnIconTheme env s) := by
  unfold warnIconTheme
  split_ifs
  · exact showMessage_frame s _ _
  · exact Frame.refl s

theorem updateToolTip_frame (env : Env) (left : ℚ) (s : SysTray) :
    Frame s (updateToolTip env left s) := by
  unfold updateToolTip
  dsimp only
  split_ifs <;> simp [Frame, SysTray.emit, powerActions, Call.isPowerAction]

theorem drawBattery_frame (env : Env) (left : ℚ) (s : SysTray) :
    Frame s (drawBattery env left s) := by
  unfold drawBattery
  dsimp only
  split_ifs <;>
    simp [Frame, trayShow, trayHide, SysTray.emit, powerActions, Call.isPowerAction]

theorem registerService_trace (env : Env) (s : SysTray) :
    Frame s (registerService env s) ∧ (registerService env s).trace = s.trace := by
  unfold registerService
  split_ifs <;> simp [Frame]

theorem handleLow_frame (env : Env) (left : ℚ) (s : SysTray) :
    (handleLow env left s).wasVeryLowBattery = s.wasVeryLowBattery ∧
    (handleLow env left s).lowBatteryValue = s.lowBatteryValue ∧
    (handleLow env left s).critBatteryValue = s.critBatteryValue ∧
    (handleLow env left s).criticalAction = s.criticalAction ∧
    (handleLow env left s).showNotifications = s.showNotifications ∧
    powerActions (handleLow env left s).trace = powerActions s.trace ∧
    (s.wasLowBattery = true → (handleLow env left s).wasLowBattery = true) := by
  obtain ⟨-, a2, a3, a4, a5, a6, a7⟩ := showMessage_frame s (Title.lowBattery left) true
  unfold handleLow
  dsimp only
  split_ifs <;> simp_all

theorem handleVeryLow_frame (env : Env) (left : ℚ) (s : SysTray) :
    (handleVeryLow env left s).wasLowBattery = s.wasLowBattery ∧
    (handleVeryLow env left s).lowBatteryValue = s.lowBatteryValue ∧
    (handleVeryLow env left s).critBatteryValue = s.critBatteryValue ∧
    (handleVeryLow env left s).criticalAction = s.criticalAction ∧
    (handleVeryLow env left s).showNotifications = s.showNotifications ∧
    powerActions (handleVeryLow env left s).trace = powerActions s.trace ∧
    (s.wasVeryLowBattery = true → (handleVeryLow env left s).wasVeryLowBattery = true) := by
  obtain ⟨a1, -, a3, a4, a5, a6, a7⟩ := showMessage_frame s (Title.veryLowBattery left) true
  unfold handleVeryLow
  dsimp only
  split_ifs <;> simp_all

/-- The state just before `checkDevices` reaches `// critical battery?`. -/
theorem checkDevices_before_critical (env : Env) (s : SysTray) :
    let t := handleVeryLow env env.batteryLeft (handleLow env env.batteryLeft
      (drawBattery env env.batteryLeft (updateToolTip env env.batteryLeft
        (warnIconTheme env (showHideTray env s)))))
    t.critBatteryValue = s.critBatteryValue ∧ t.criticalAction = s.criticalAction ∧
    powerActions t.trace = powerActions s.trace ∧
    (s.wasLowBattery = true → t.wasLowBattery = true) ∧
    (s.wasVeryLowBattery = true → t.wasVeryLowBattery = true) := by
  intro t
  have f := (((showHideTray_frame env s).trans (warnIconTheme_frame env _)).trans
    (updateToolTip_frame env env.batteryLeft _)).trans (drawBattery_frame env env.batteryLeft _)
  obtain ⟨f1, f2, -, f4, f5, -, f7⟩ := f
  obtain ⟨l1, -, l3, l4, -, l6, l7⟩ := handleLow_frame env env.batteryLeft
    (drawBattery env env.batteryLeft (updateToolTip env env.batteryLeft
        (warnIconTheme env (showHideTray env s))))
  obtain ⟨v1, -, v3, v4, -, v6, v7⟩ := handleVeryLow_frame env env.batteryLeft
    (handleLow env env.batteryLeft
      (drawBattery env env.batteryLeft (updateToolTip env env.batteryLeft
        (warnIconTheme env (showHideTray env s)))))
  refine ⟨by rw [v3, l3, f4], by rw [v4, l4, f5], by rw [v6, l6, f7], ?_, ?_⟩
  · intro h
    rw [v1]
    exact l7 (by rw [f1]; exact h)
  · intro h
    exact v7 (by rw [l1, f2]; exact h)

theorem handleCritical_frame (d : Def) (s : SysTray) :
    (handleCritical d s).wasLowBattery = s.wasLowBattery ∧
    (handleCritical d s).wasVeryLowBattery = s.wasVeryLowBattery ∧
    (handleCritical d s).critBatteryValue = s.critBatteryValue ∧
    (handleCritical d s).criticalAction = s.criticalAction ∧
    powerActions (handleCritical d s).trace = powerActions s.trace ++
      (if s.criticalAction = d.criticalHibernate then [Call.hibernate]
        else if s.criticalAction = d.criticalShutdown then [Call.shutdown] else []) := by
  unfold handleCritical
  split_ifs <;> simp [SysTray.emit, powerActions, Call.isPowerAction]

/-- The power actions of one run of `checkDevices`. -/
theorem checkDevices_power (d : Def) (env : Env) (s : SysTray) :
    (checkDevices d env s).critBatteryValue = s.critBatteryValue ∧
    (checkDevices d env s).criticalAction = s.criticalAction ∧
    powerActions (checkDevices d env s).trace = powerActions s.trace ++
      (if 0 < env.batteryLeft ∧ env.batteryLeft ≤ ((s.critBatteryValue : Int) : ℚ) ∧
          env.onBattery = true then
        (if s.criticalAction = d.criticalHibernate then [Call.hibernate]
          else if s.criticalAction = d.criticalShutdown then [Call.shutdown] else [])
      else []) := by
  obtain ⟨b1, b2, b3, -, -⟩ := checkDevices_before_critical env s
  have key : ∀ t : SysTray, t.critBatteryValue = s.critBatteryValue →
      t.criticalAction = s.criticalAction → powerActions t.trace = powerActions s.trace →
      (checkCritical d env env.batteryLeft t).critBatteryValue = s.critBatteryValue ∧
      (checkCritical d env env.batteryLeft t).criticalAction = s.criticalAction ∧
      powerActions (checkCritical d env env.batteryLeft t).trace = powerActions s.trace ++
        (if 0 < env.batteryLeft ∧ env.batteryLeft ≤ ((s.critBatteryValue : Int) : ℚ) ∧
            env.onBattery = true then
          (if s.criticalAction = d.criticalHibernate then [Call.hibernate]
            else if s.criticalAction = d.criticalShutdown then [Call.shutdown] else [])
        else []) := by
    intro t h1 h2 h3
    obtain ⟨-, -, c3, c4, c5⟩ := handleCritical_frame d t
    unfold checkCritical
    rw [h1]
    by_cases hc : 0 < env.batteryLeft ∧ env.batteryLeft ≤ ((s.critBatteryValue : Int) : ℚ) ∧
        env.onBattery = true
    · simp only [if_pos hc]
      rw [c3, c4, c5, h1, h2, h3]
      exact ⟨rfl, rfl, rfl⟩
    · simp only [if_neg hc]
      exact ⟨h1, h2, by rw [h3, List.append_nil]⟩
  obtain ⟨k1, k2, k3⟩ := key _ b1 b2 b3
  obtain ⟨⟨-, -, -, r4, r5, -, r7⟩, -⟩ := registerService_trace env
    (checkCritical d env env.batteryLeft
      (handleVeryLow env env.batteryLeft (handleLow env env.batteryLeft
        (drawBattery env env.batteryLeft (updateToolTip env env.batteryLeft
          (warnIconTheme env (showHideTray env s)))))))
  have e : checkDevices d env s =
      if (!(checkCritical d env env.batteryLeft
          (handleVeryLow env env.batteryLeft (handleLow env env.batteryLeft
            (drawBattery env env.batteryLeft (updateToolTip env env.batteryLeft
              (warnIconTheme env (showHideTray env s))))))).hasService) = true then
        registerService env (checkCritical d env env.batteryLeft
          (handleVeryLow env env.batteryLeft (handleLow env env.batteryLeft
            (drawBattery env env.batteryLeft (updateToolTip env env.batteryLeft
              (warnIconTheme env (showHideTray env s)))))))
      else checkCritical d env env.batteryLeft
          (handleVeryLow env env.batteryLeft (handleLow env env.batteryLeft
            (drawBattery env env.batteryLeft (updateToolTip env env.batteryLeft
              (warnIconTheme env (showHideTray env s)))))) := rfl
  rw [e]
  by_cases hh : (!(checkCritical d env env.batteryLeft
          (handleVeryLow env env.batteryLeft (handleLow env env.batteryLeft
            (drawBattery env env.batteryLeft (updateToolTip env env.batteryLeft
              (warnIconTheme env (showHideTray env s))))))).hasService) = true
  · simp only [if_pos hh]
    rw [r4, r5, r7]
    exact ⟨k1, k2, k3⟩
  · simp only [if_neg hh]
    exact ⟨k1, k2, k3⟩

/-! ## Critical battery (C4) -/

/-- C4: `handleCritical` calls `hibernate` when `criticalAction` is Hibernate, `shutdown`
when it is Shutdown and nothing otherwise; `checkDevices` runs it if and only if
`batteryLeft > 0`, `batteryLeft <= critBatteryValue` and the machine is on battery,
whatever the flags `wasLowBattery`/`wasVeryLowBattery` and the earlier samples; two
consecutive qualifying samples both dispatch the configured action. -/
theorem critical_action_every_sample (d : Def) (hd : d.EnumsDistinct) (env env2 : Env)
    (s : SysTray) :
    ((s.criticalAction = d.criticalHibernate →
        (handleCritical d s).trace = s.trace ++ [Call.hibernate]) ∧
      (s.criticalAction = d.criticalShutdown →
        (handleCritical d s).trace = s.trace ++ [Call.shutdown]) ∧
      (s.criticalAction ≠ d.criticalHibernate → s.criticalAction ≠ d.criticalShutdown →
        handleCritical d s = s)) ∧
    ((0 < env.batteryLeft ∧ env.batteryLeft ≤ ((s.critBatteryValue : Int) : ℚ) ∧
        env.onBattery = true) →
      (s.criticalAction = d.criticalHibernate →
        powerActions (checkDevices d env s).trace =
          powerActions s.trace ++ [Call.hibernate]) ∧
      (s.criticalAction = d.criticalShutdown →
        powerActions (checkDevices d env s).trace =
          powerActions s.trace ++ [Call.shutdown]) ∧
      (s.criticalAction ≠ d.criticalHibernate → s.criticalAction ≠ d.criticalShutdown →
        powerActions (checkDevices d env s).trace = powerActions s.trace)) ∧
    (¬ (0 < env.batteryLeft ∧ env.batteryLeft ≤ ((s.critBatteryValue : Int) : ℚ) ∧
        env.onBattery = true) →
      powerActions (checkDevices d env s).trace = powerActions s.trace) ∧
    ((s.criticalAction = d.criticalHibernate ∨ s.criticalAction = d.criticalShutdown) →
      (powerActions (checkDevices d env s).trace ≠ powerActions s.trace ↔
        (0 < env.batteryLeft ∧ env.batteryLeft ≤ ((s.critBatteryValue : Int) : ℚ) ∧
          env.onBattery = true))) ∧
    ((0 < env.batteryLeft ∧ env.batteryLeft ≤ ((s.critBatteryValue : Int) : ℚ) ∧
        env.onBattery = true) →
      (0 < env2.batteryLeft ∧ env2.batteryLeft ≤ ((s.critBatteryValue : Int) : ℚ) ∧
        env2.onBattery = true) →
      (s.criticalAction = d.criticalHibernate →
        powerActions (checkDevices d env2 (checkDevices d env s)).trace =
          powerActions s.trace ++ [Call.hibernate, Call.hibernate]) ∧
      (s.criticalAction = d.criticalShutdown →
        powerActions (checkDevices d env2 (checkDevices d env s)).trace =
          powerActions s.trace ++ [Call.shutdown, Call.shutdown])) := by
  have hne : d.criticalShutdown ≠ d.criticalHibernate := hd.critical.symm
  obtain ⟨p1, p2, p3⟩ := checkDevices_power d env s
  obtain ⟨-, -, q3⟩ := checkDevices_power d env2 (checkDevices d env s)
  rw [p1, p2, p3] at q3
  refine ⟨⟨?_, ?_, ?_⟩, ?_, ?_, ?_, ?_⟩
  · intro h
    simp [handleCritical, h, SysTray.emit]
  · intro h
    simp [handleCritical, h, hne, SysTray.emit]
  · intro h1 h2
    simp [handleCritical, h1, h2]
  · intro hc
    rw [p3, if_pos hc]
    refine ⟨?_, ?_, ?_⟩
    · intro h
      rw [if_pos h]
    · intro h
      rw [if_neg (by rw [h]; exact hne), if_pos h]
    · intro h1 h2
      rw [if_neg h1, if_neg h2, List.append_nil]
  · intro hc
    rw [p3, if_neg hc, List.append_nil]
  · intro hca
    rw [p3]
    by_cases hc : 0 < env.batteryLeft ∧ env.batteryLeft ≤ ((s.critBatteryValue : Int) : ℚ) ∧
        env.onBattery = true
    · rw [if_pos hc]
      rcases hca with h | h
      · simp [h, hc]
      · simp [h, hne, hc]
    · rw [if_neg hc]
      simp [hc]
  · intro hc hc2
    rw [if_pos hc, if_pos hc2] at q3
    constructor
    · intro h
      rw [q3, if_pos h]
      simp
    · intro h
      rw [q3, if_neg (by rw [h]; exact hne), if_pos h]
      simp

/-- Witness of C4: on battery, two samples at 5 percent with critical threshold 5 and
critical action Shutdown call `shutdown` twice. -/
theorem critical_action_every_sample_witness :
    sampleDef.EnumsDistinct ∧
    powerActions (checkDevices sampleDef sampleEnv (checkDevices sampleDef sampleEnv
      { SysTray.init sampleDef with criticalAction := sampleDef.criticalShutdown })).trace =
      [Call.shutdown, Call.shutdown] :=
  ⟨sampleDef_distinct,
    ((critical_action_every_sample sampleDef sampleDef_distinct sampleEnv sampleEnv
      { SysTray.init sampleDef with criticalAction := sampleDef.criticalShutdown }).2.2.2.2
      (by simp [sampleEnv, SysTray.init, sampleDef])
      (by simp [sampleEnv, SysTray.init, sampleDef])).2 rfl⟩

/-! ## Battery notifications (C5 to C7) -/

theorem wrap32_eq_self {x : Int} (h : InInt32 x) : wrap32 x = x := by
  unfold InInt32 at h
  unfold wrap32
  omega

theorem exists_first_sample (p : ℚ → Prop) (l : List ℚ) (h : ∃ y ∈ l, p y) :
    ∃ pre x post, l = pre ++ x :: post ∧ (∀ y ∈ pre, ¬ p y) ∧ p x := by
  induction l with
  | nil => simp at h
  | cons a as ih =>
    by_cases ha : p a
    · exact ⟨[], a, as, rfl, by simp, ha⟩
    · have h2 : ∃ y ∈ as, p y := by
        obtain ⟨y, hy, hp⟩ := h
        rcases List.mem_cons.mp hy with e | hm
        · exact absurd (e ▸ hp) ha
        · exact ⟨y, hm, hp⟩
      obtain ⟨pre, x, post, e, hpre, hx⟩ := ih h2
      refine ⟨a :: pre, x, post, by rw [e]; rfl, ?_, hx⟩
      intro y hy
      rcases List.mem_cons.mp hy with e2 | hm
      · rw [e2]; exact ha
      · exact hpre y hm

theorem handleLow_above (env : Env) (left : ℚ) (s : SysTray)
    (h : ¬ left ≤ ((wrap32 (s.lowBatteryValue + s.critBatteryValue) : Int) : ℚ)) :
    handleLow env left s = s := by
  unfold handleLow
  dsimp only
  rw [if_neg (fun hc => h hc.1)]

theorem handleLow_notified (env : Env) (left : ℚ) (s : SysTray)
    (h : s.wasLowBattery = true) : handleLow env left s = s := by
  unfold handleLow
  dsimp only
  split_ifs <;> simp_all

theorem handleLow_fire (env : Env) (left : ℚ) (s : SysTray) (hb : env.onBattery = true)
    (hw : s.wasLowBattery = false)
    (h : left ≤ ((wrap32 (s.lowBatteryValue + s.critBatteryValue) : Int) : ℚ)) :
    handleLow env left s =
      { showMessage s (Title.lowBattery left) true with wasLowBattery := true } := by
  unfold handleLow
  dsimp only
  rw [if_pos ⟨h, hb⟩, if_pos (by simp [hw])]

theorem runLow_append (env : Env) (xs ys : List ℚ) (s : SysTray) :
    runLow env (xs ++ ys) s = runLow env ys (runLow env xs s) := by
  simp [runLow, List.foldl_append]

theorem runLow_above (env : Env) (samples : List ℚ) (s : SysTray)
    (h : ∀ y ∈ samples,
      ¬ y ≤ ((wrap32 (s.lowBatteryValue + s.critBatteryValue) : Int) : ℚ)) :
    runLow env samples s = s := by
  induction samples with
  | nil => rfl
  | cons x xs ih =>
    have hx := h x (List.mem_cons_self x xs)
    have e : runLow env (x :: xs) s = runLow env xs (handleLow env x s) := rfl
    rw [e, handleLow_above env x s hx]
    exact ih (fun y hy => h y (List.mem_cons_of_mem x hy))

theorem runLow_notified (env : Env) (samples : List ℚ) (s : SysTray)
    (h : s.wasLowBattery = true) : runLow env samples s = s := by
  induction samples with
  | nil => rfl
  | cons x xs ih =>
    have e : runLow env (x :: xs) s = runLow env xs (handleLow env x s) := rfl
    rw [e, handleLow_notified env x s h]
    exact ih

theorem showMessage_trace (s : SysTray) (title : Title) (critical : Bool) :
    (showMessage s title critical).trace =
      s.trace ++ Call.showMessage title critical ::
        (if (s.trayVisible && s.showNotifications) = true then
          [Call.trayShowMessage title critical] else []) := by
  unfold showMessage
  dsimp only
  split_ifs <;> simp_all [SysTray.emit]

theorem lowNotifications_showMessage (s : SysTray) (left : ℚ) (critical : Bool) :
    lowNotifications (showMessage s (Title.lowBattery left) critical).trace =
      lowNotifications s.trace ++ [Call.showMessage (Title.lowBattery left) critical] := by
  rw [showMessage_trace]
  split_ifs <;> simp [lowNotifications, Call.isLowNotification]

/-- C5: low-battery hysteresis. On battery, starting from `wasLowBattery = false` (and
with `lowBatteryValue + critBatteryValue` free of overflow), a sequence of samples given
to `handleLow` issues the low-battery `showMessage` at most once: exactly at the first
sample with `percent <= lowBatteryValue + critBatteryValue`, nothing before it and nothing
after it, and `wasLowBattery` is true from then on; it is never issued when there is no
such sample. -/
theorem low_battery_hysteresis (env : Env) (s : SysTray) (samples : List ℚ)
    (hb : env.onBattery = true) (hw : s.wasLowBattery = false)
    (hr : InInt32 (s.lowBatteryValue + s.critBatteryValue)) :
    (∀ pre x post, samples = pre ++ x :: post →
      (∀ y ∈ pre, ¬ y ≤ ((s.lowBatteryValue + s.critBatteryValue : Int) : ℚ)) →
      x ≤ ((s.lowBatteryValue + s.critBatteryValue : Int) : ℚ) →
      runLow env pre s = s ∧
      runLow env (pre ++ [x]) s =
        { showMessage s (Title.lowBattery x) true with wasLowBattery := true } ∧
      runLow env samples s = runLow env (pre ++ [x]) s ∧
      (runLow env samples s).wasLowBattery = true ∧
      lowNotifications (runLow env samples s).trace =
        lowNotifications s.trace ++ [Call.showMessage (Title.lowBattery x) true]) ∧
    ((∀ y ∈ samples, ¬ y ≤ ((s.lowBatteryValue + s.critBatteryValue : Int) : ℚ)) →
      runLow env samples s = s) ∧
    (lowNotifications (runLow env samples s).trace).length ≤
      (lowNotifications s.trace).length + 1 := by
  have hthr : wrap32 (s.lowBatteryValue + s.critBatteryValue) =
      s.lowBatteryValue + s.critBatteryValue := wrap32_eq_self hr
  have first : ∀ pre x post, samples = pre ++ x :: post →
      (∀ y ∈ pre, ¬ y ≤ ((s.lowBatteryValue + s.critBatteryValue : Int) : ℚ)) →
      x ≤ ((s.lowBatteryValue + s.critBatteryValue : Int) : ℚ) →
      runLow env pre s = s ∧
      runLow env (pre ++ [x]) s =
        { showMessage s (Title.lowBattery x) true with wasLowBattery := true } ∧
      runLow env samples s = runLow env (pre ++ [x]) s ∧
      (runLow env samples s).wasLowBattery = true ∧
      lowNotifications (runLow env samples s).trace =
        lowNotifications s.trace ++ [Call.showMessage (Title.lowBattery x) true] := by
    intro pre x post hs hpre hx
    have e1 : runLow env pre s = s := runLow_above env pre s (by rw [hthr]; exact hpre)
    have e2 : runLow env (pre ++ [x]) s =
        { showMessage s (Title.lowBattery x) true with wasLowBattery := true } := by
      rw [runLow_append, e1]
      exact handleLow_fire env x s hb hw (by rw [hthr]; exact hx)
    have e3 : runLow env samples s = runLow env (pre ++ [x]) s := by
      have : samples = (pre ++ [x]) ++ post := by rw [hs]; simp
      rw [this, runLow_append]
      exact runLow_notified env post _ (by rw [e2])
    refine ⟨e1, e2, e3, by rw [e3, e2], ?_⟩
    rw [e3, e2]
    exact lowNotifications_showMessage s x true
  refine ⟨first, fun h => runLow_above env samples s (by rw [hthr]; exact h), ?_⟩
  by_cases hall : ∀ y ∈ samples, ¬ y ≤ ((s.lowBatteryValue + s.critBatteryValue : Int) : ℚ)
  · rw [runLow_above env samples s (by rw [hthr]; exact hall)]
    exact Nat.le_succ _
  · have hex : ∃ y ∈ samples,
        y ≤ ((s.lowBatteryValue + s.critBatteryValue : Int) : ℚ) := by
      by_contra hne
      exact hall (fun y hy hle => hne ⟨y, hy, hle⟩)
    obtain ⟨pre, x, post, hs, hpre, hx⟩ := exists_first_sample _ samples hex
    obtain ⟨-, -, -, -, e5⟩ := first pre x post hs hpre hx
    rw [e5, List.length_append]
    exact Nat.le_refl _

/-- Witness of C5: on battery with low = 20 and critical = 5, the samples 30, 20, 9, 9, 15
issue the low-battery notification once, at the sample 20. -/
theorem low_battery_hysteresis_witness :
    sampleEnv.onBattery = true ∧ (SysTray.init sampleDef).wasLowBattery = false ∧
    InInt32 ((SysTray.init sampleDef).lowBatteryValue +
      (SysTray.init sampleDef).critBatteryValue) ∧
    runLow sampleEnv [30] (SysTray.init sampleDef) = SysTray.init sampleDef ∧
    lowNotifications (runLow sampleEnv [30, 20, 9, 9, 15] (SysTray.init sampleDef)).trace =
      [Call.showMessage (Title.lowBattery 20) true] :=
  have h := (low_battery_hysteresis sampleEnv (SysTray.init sampleDef) [30, 20, 9, 9, 15]
    rfl rfl (by decide)).1 [30] 20 [9, 9, 15] rfl
    (by simp [SysTray.init, sampleDef]; norm_num)
    (by simp [SysTray.init, sampleDef]; norm_num)
  ⟨rfl, rfl, by decide, h.1, h.2.2.2.2⟩

theorem handleVeryLow_above (env : Env) (left : ℚ) (s : SysTray)
    (h : ¬ left ≤ ((wrap32 (s.critBatteryValue + 1) : Int) : ℚ)) :
    handleVeryLow env left s = s := by
  unfold handleVeryLow
  dsimp only
  rw [if_neg (fun hc => h hc.1)]

theorem runVeryLow_above (env : Env) (samples : List ℚ) (s : SysTray)
    (h : ∀ y ∈ samples, ¬ y ≤ ((wrap32 (s.critBatteryValue + 1) : Int) : ℚ)) :
    runVeryLow env samples s = s := by
  induction samples with
  | nil => rfl
  | cons x xs ih =>
    have hx := h x (List.mem_cons_self x xs)
    have e : runVeryLow env (x :: xs) s = runVeryLow env xs (handleVeryLow env x s) := rfl
    rw [e, handleVeryLow_above env x s hx]
    exact ih (fun y hy => h y (List.mem_cons_of_mem x hy))

theorem sample_sequence_above_six (s : SysTray) (hc : s.critBatteryValue = 5) :
    ∀ y ∈ ([30, 20, 9, 9, 15] : List ℚ),
      ¬ y ≤ ((wrap32 (s.critBatteryValue + 1) : Int) : ℚ) := by
  have e : wrap32 (s.critBatteryValue + 1) = 6 := by rw [hc]; decide
  rw [e]
  intro y hy
  simp only [List.mem_cons, List.mem_singleton, List.not_mem_nil, or_false] at hy
  rcases hy with h | h | h | h | h <;> rw [h] <;> norm_num

/-- Counterexample to C6 as stated: on battery with low = 20, critical = 5 and
`wasVeryLowBattery = false`, the samples 30, 20, 9, 9, 15 issue no very-low-battery
notification at all, not one. -/
theorem very_low_not_issued_once :
    sampleEnv.onBattery = true ∧
    (SysTray.init sampleDef).lowBatteryValue = 20 ∧
    (SysTray.init sampleDef).critBatteryValue = 5 ∧
    (SysTray.init sampleDef).wasVeryLowBattery = false ∧
    veryLowNotifications
      (runVeryLow sampleEnv [30, 20, 9, 9, 15] (SysTray.init sampleDef)).trace = [] ∧
    (veryLowNotifications
      (runVeryLow sampleEnv [30, 20, 9, 9, 15] (SysTray.init sampleDef)).trace).length
        ≠ 1 := by
  have e := runVeryLow_above sampleEnv [30, 20, 9, 9, 15] (SysTray.init sampleDef)
    (sample_sequence_above_six _ rfl)
  rw [e]
  decide

/-- C6, amended: with critical = 5 (and low = 20, on battery, `wasVeryLowBattery = false`),
`handleVeryLow` issues the very-low-battery notification zero times over the samples
30, 20, 9, 9, 15, since none of them is at most `critBatteryValue + 1 = 6`; the state is
left as it was. -/
theorem very_low_silent_on_sample_sequence (env : Env) (s : SysTray)
    (hc : s.critBatteryValue = 5) :
    runVeryLow env [30, 20, 9, 9, 15] s = s ∧
    veryLowNotifications (runVeryLow env [30, 20, 9, 9, 15] s).trace =
      veryLowNotifications s.trace ∧
    (runVeryLow env [30, 20, 9, 9, 15] s).wasVeryLowBattery = s.wasVeryLowBattery := by
  have e := runVeryLow_above env [30, 20, 9, 9, 15] s (sample_sequence_above_six s hc)
  rw [e]
  exact ⟨rfl, rfl, rfl⟩

/-- Witness of C6, amended: the initial state with low = 20 and critical = 5, on
battery. -/
theorem very_low_silent_on_sample_sequence_witness :
    (SysTray.init sampleDef).critBatteryValue = 5 ∧
    sampleEnv.onBattery = true ∧
    (SysTray.init sampleDef).wasVeryLowBattery = false ∧
    runVeryLow sampleEnv [30, 20, 9, 9, 15] (SysTray.init sampleDef) =
      SysTray.init sampleDef :=
  ⟨rfl, rfl, rfl, (very_low_silent_on_sample_sequence sampleEnv (SysTray.init sampleDef) rfl).1⟩

theorem checkDevices_flags (d : Def) (env : Env) (s : SysTray) :
    (s.wasLowBattery = true → (checkDevices d env s).wasLowBattery = true) ∧
    (s.wasVeryLowBattery = true → (checkDevices d env s).wasVeryLowBattery = true) := by
  obtain ⟨-, -, -, b4, b5⟩ := checkDevices_before_critical env s
  have key : ∀ t : SysTray,
      (checkCritical d env env.batteryLeft t).wasLowBattery = t.wasLowBattery ∧
      (checkCritical d env env.batteryLeft t).wasVeryLowBattery = t.wasVeryLowBattery := by
    intro t
    obtain ⟨c1, c2, -, -, -⟩ := handleCritical_frame d t
    unfold checkCritical
    split_ifs
    · exact ⟨c1, c2⟩
    · exact ⟨rfl, rfl⟩
  have reg : ∀ t : SysTray,
      (if (!t.hasService) = true then registerService env t else t).wasLowBattery =
        t.wasLowBattery ∧
      (if (!t.hasService) = true then registerService env t else t).wasVeryLowBattery =
        t.wasVeryLowBattery := by
    intro t
    obtain ⟨⟨r1, r2, -, -, -, -, -⟩, -⟩ := registerService_trace env t
    split_ifs
    · exact ⟨r1, r2⟩
    · exact ⟨rfl, rfl⟩
  unfold checkDevices
  dsimp only
  rw [(reg _).1, (reg _).2, (key _).1, (key _).2]
  exact ⟨b4, b5⟩

theorem handleClosedLid_flags (d : Def) (env : Env) (s : SysTray) :
    (handleClosedLid d env s).wasLowBattery = s.wasLowBattery ∧
    (handleClosedLid d env s).wasVeryLowBattery = s.wasVeryLowBattery := by
  unfold handleClosedLid
  dsimp only
  split_ifs <;> exact ⟨rfl, rfl⟩

theorem timeoutTray_frame (env : Env) (s : SysTray) : Frame s (timeoutTray env s) := by
  unfold timeoutTray
  dsimp only
  split_ifs
  · exact (trayHide_frame s).trans (trayShow_frame _)
  · exact trayHide_frame s
  · exact trayShow_frame s
  · exact Frame.refl s

theorem timeoutSuspend_flags (d : Def) (env : Env) (uIdle : Int) (s : SysTray) :
    (timeoutSuspend d env uIdle s).wasLowBattery = s.wasLowBattery ∧
    (timeoutSuspend d env uIdle s).wasVeryLowBattery = s.wasVeryLowBattery := by
  unfold timeoutSuspend
  dsimp only
  split_ifs <;> exact ⟨rfl, rfl⟩

theorem loadSettings_flags (d : Def) (env : Env) (s : SysTray) :
    (loadSettings d env s).wasLowBattery = s.wasLowBattery ∧
    (loadSettings d env s).wasVeryLowBattery = s.wasVeryLowBattery := by
  unfold loadSettings
  simp only [disableHibernate_eq, disableSuspend_eq]
  split_ifs <;> exact ⟨rfl, rfl⟩

/-- Every member function other than `handleOnAC` keeps a notified flag that is set. -/
theorem runHandler_flags (d : Def) (env : Env) (h : Handler) (s : SysTray)
    (hne : h ≠ Handler.handleOnAC) :
    (s.wasLowBattery = true → (runHandler d env h s).wasLowBattery = true) ∧
    (s.wasVeryLowBattery = true → (runHandler d env h s).wasVeryLowBattery = true) := by
  cases h with
  | handleOnAC => exact absurd rfl hne
  | checkDevices => exact checkDevices_flags d env s
  | handleClosedLid =>
    obtain ⟨a, b⟩ := handleClosedLid_flags d env s
    exact ⟨fun h => by rw [runHandler, a]; exact h, fun h => by rw [runHandler, b]; exact h⟩
  | timeout uIdle =>
    obtain ⟨a1, a2, -⟩ := timeoutTray_frame env s
    obtain ⟨b1, b2⟩ := timeoutSuspend_flags d env uIdle (timeoutTray env s)
    exact ⟨fun h => by rw [runHandler, b1, a1]; exact h,
      fun h => by rw [runHandler, b2, a2]; exact h⟩
  | loadSettings =>
    obtain ⟨a, b⟩ := loadSettings_flags d env s
    exact ⟨fun h => by rw [runHandler, a]; exact h, fun h => by rw [runHandler, b]; exact h⟩
  | handleConfChanged =>
    obtain ⟨a, b⟩ := loadSettings_flags d env s
    exact ⟨fun h => by rw [runHandler, handleConfChanged, a]; exact h,
      fun h => by rw [runHandler, handleConfChanged, b]; exact h⟩
  | handleOnBattery =>
    obtain ⟨a, b, -⟩ := showMessage_frame s Title.onBattery false
    exact ⟨fun h => by rw [runHandler, handleOnBattery, a]; exact h,
      fun h => by rw [runHandler, handleOnBattery, b]; exact h⟩
  | showMessage title critical =>
    obtain ⟨a, b, -⟩ := showMessage_frame s title critical
    exact ⟨fun h => by rw [runHandler, a]; exact h, fun h => by rw [runHandler, b]; exact h⟩
  | registerService =>
    obtain ⟨⟨a, b, -⟩, -⟩ := registerService_trace env s
    exact ⟨fun h => by rw [runHandler, a]; exact h, fun h => by rw [runHandler, b]; exact h⟩
  | handleLow left =>
    obtain ⟨a, -, -, -, -, -, b⟩ := handleLow_frame env left s
    exact ⟨b, fun h => by rw [runHandler, a]; exact h⟩
  | handleVeryLow left =>
    obtain ⟨a, -, -, -, -, -, b⟩ := handleVeryLow_frame env left s
    exact ⟨fun h => by rw [runHandler, a]; exact h, b⟩
  | handleCritical =>
    obtain ⟨a, b, -⟩ := handleCritical_frame d s
    exact ⟨fun h => by rw [runHandler, a]; exact h, fun h => by rw [runHandler, b]; exact h⟩
  | drawBattery left =>
    obtain ⟨a, b, -⟩ := drawBattery_frame env left s
    exact ⟨fun h => by rw [runHandler, a]; exact h, fun h => by rw [runHandler, b]; exact h⟩
  | handleHasInhibitChanged has_inhibit =>
    cases has_inhibit <;> exact ⟨fun h => h, fun h => h⟩
  | disableHibernate =>
    simp only [runHandler, disableHibernate_eq]
    exact ⟨fun h => h, fun h => h⟩
  | disableSuspend =>
    simp only [runHandler, disableSuspend_eq]
    exact ⟨fun h => h, fun h => h⟩
  | _ => exact ⟨fun h => h, fun h => h⟩

theorem lowNotifications_showMessage_other (s : SysTray) (title : Title) (critical : Bool)
    (ht : ∀ q, title ≠ Title.lowBattery q) :
    lowNotifications (showMessage s title critical).trace = lowNotifications s.trace := by
  rw [showMessage_trace]
  cases title with
  | lowBattery q => exact absurd rfl (ht q)
  | _ => split_ifs <;> simp [lowNotifications, Call.isLowNotification]

/-- C7: the notified flags are reset exactly on the AC transition. After `handleOnAC`
both `wasLowBattery` and `wasVeryLowBattery` are false; no other member function turns
either flag from true to false; and after an AC transition, back on battery, a sample at
20 percent (low = 20, critical = 5) issues the low-battery notification again, also when
it had been issued before. -/
theorem notified_flags_reset_on_AC (d : Def) (env : Env) (s : SysTray) :
    ((handleOnAC s).wasLowBattery = false ∧ (handleOnAC s).wasVeryLowBattery = false) ∧
    (∀ h : Handler, h ≠ Handler.handleOnAC →
      (s.wasLowBattery = true → (runHandler d env h s).wasLowBattery = true) ∧
      (s.wasVeryLowBattery = true → (runHandler d env h s).wasVeryLowBattery = true)) ∧
    (env.onBattery = true → s.lowBatteryValue = 20 → s.critBatteryValue = 5 →
      lowNotifications (handleLow env 20 (handleOnBattery (handleOnAC s))).trace =
        lowNotifications s.trace ++ [Call.showMessage (Title.lowBattery 20) true] ∧
      (handleLow env 20 (handleOnBattery (handleOnAC s))).wasLowBattery = true) := by
  refine ⟨⟨rfl, rfl⟩, fun h hne => runHandler_flags d env h s hne, ?_⟩
  intro hb hl hc
  obtain ⟨a1, -, a3, a4, -, -, -⟩ := showMessage_frame (handleOnAC s) Title.onBattery false
  have w : (handleOnBattery (handleOnAC s)).wasLowBattery = false := a1
  have l : (handleOnBattery (handleOnAC s)).lowBatteryValue = 20 := by
    obtain ⟨-, -, b3, -⟩ := showMessage_frame s Title.onAC false
    exact a3.trans (b3.trans hl)
  have c : (handleOnBattery (handleOnAC s)).critBatteryValue = 5 := by
    obtain ⟨-, -, -, b4, -⟩ := showMessage_frame s Title.onAC false
    exact a4.trans (b4.trans hc)
  have thr : ((20 : ℚ)) ≤ ((wrap32 ((handleOnBattery (handleOnAC s)).lowBatteryValue +
      (handleOnBattery (handleOnAC s)).critBatteryValue) : Int) : ℚ) := by
    have e : wrap32 (20 + 5) = 25 := by decide
    rw [l, c, e]
    norm_num
  rw [handleLow_fire env 20 _ hb w thr]
  refine ⟨?_, rfl⟩
  rw [lowNotifications_showMessage]
  have e1 : lowNotifications (handleOnBattery (handleOnAC s)).trace =
      lowNotifications (handleOnAC s).trace :=
    lowNotifications_showMessage_other _ _ _ (fun q => by simp)
  have e2 : lowNotifications (handleOnAC s).trace = lowNotifications s.trace :=
    lowNotifications_showMessage_other s Title.onAC false (fun q => by simp)
  rw [e1, e2]

/-- Witness of C7: both flags were set before the AC transition, and the sample at 20
percent is notified again. -/
theorem notified_flags_reset_on_AC_witness :
    sampleEnv.onBattery = true ∧
    lowNotifications (handleLow sampleEnv 20 (handleOnBattery (handleOnAC
      { SysTray.init sampleDef with
        wasLowBattery := true, wasVeryLowBattery := true }))).trace =
      [Call.showMessage (Title.lowBattery 20) true] :=
  ⟨rfl, ((notified_flags_reset_on_AC sampleDef sampleEnv
      { SysTray.init sampleDef with
        wasLowBattery := true, wasVeryLowBattery := true }).2.2 rfl rfl rfl).1⟩

/-! ## Lid and monitors (C8 to C10) -/

/-- C8: when `disableLidOnExternalMonitors` is true and `externalMonitorIsConnected()` is
true, `handleClosedLid` performs no action at all, on battery or on AC and whatever the
configured lid actions: the state and the trace are left as they were. -/
theorem handleClosedLid_suppressed (d : Def) (env : Env) (s : SysTray)
    (hdis : s.disableLidOnExternalMonitors = true)
    (hext : externalMonitorIsConnected d env s = true) :
    handleClosedLid d env s = s ∧ (handleClosedLid d env s).trace = s.trace := by
  have e : handleClosedLid d env s = s := by
    unfold handleClosedLid
    dsimp only
    rw [if_pos (by simp [hdis, hext])]
  rw [e]
  exact ⟨rfl, rfl⟩

/-- Witness of C8: lid action Shutdown on battery, with a connected external output next
to the internal panel. -/
theorem handleClosedLid_suppressed_witness :
    let env := { sampleEnv with outputs := [("HDMI1", true), ("LVDS1", true)] }
    let s := { SysTray.init sampleDef with
      internalMonitor := "LVDS1", lidActionBattery := sampleDef.lidShutdown }
    s.disableLidOnExternalMonitors = true ∧
    externalMonitorIsConnected sampleDef env s = true ∧
    (handleClosedLid sampleDef env s).trace = [] :=
  ⟨rfl, by decide,
    (handleClosedLid_suppressed sampleDef
      { sampleEnv with outputs := [("HDMI1", true), ("LVDS1", true)] }
      { SysTray.init sampleDef with
        internalMonitor := "LVDS1", lidActionBattery := sampleDef.lidShutdown }
      rfl (by decide)).2⟩

/-- C9: when the lid action is not suppressed (`disableLidOnExternalMonitors` false or no
external monitor connected), `handleClosedLid` takes `lidActionBattery` on battery and
`lidActionAC` otherwise and makes exactly the call that value selects: Lock `lockScreen`,
Sleep `sleep`, Hibernate `hibernate`, Shutdown `shutdown`; for None and any other value it
makes no call. -/
theorem handleClosedLid_dispatch (d : Def) (hd : d.EnumsDistinct) (env : Env) (s : SysTray)
    (hns : s.disableLidOnExternalMonitors = false ∨
      externalMonitorIsConnected d env s = false) :
    ((if env.onBattery = true then s.lidActionBattery else s.lidActionAC) = d.lidLock →
      handleClosedLid d env s = s.emit Call.lockScreen) ∧
    ((if env.onBattery = true then s.lidActionBattery else s.lidActionAC) = d.lidSleep →
      handleClosedLid d env s = s.emit Call.sleep) ∧
    ((if env.onBattery = true then s.lidActionBattery else s.lidActionAC) = d.lidHibernate →
      handleClosedLid d env s = s.emit Call.hibernate) ∧
    ((if env.onBattery = true then s.lidActionBattery else s.lidActionAC) = d.lidShutdown →
      handleClosedLid d env s = s.emit Call.shutdown) ∧
    ((if env.onBattery = true then s.lidActionBattery else s.lidActionAC) ≠ d.lidLock →
      (if env.onBattery = true then s.lidActionBattery else s.lidActionAC) ≠ d.lidSleep →
      (if env.onBattery = true then s.lidActionBattery else s.lidActionAC) ≠ d.lidHibernate →
      (if env.onBattery = true then s.lidActionBattery else s.lidActionAC) ≠ d.lidShutdown →
      handleClosedLid d env s = s) := by
  obtain ⟨l1, l2, l3, l4, l5, l6⟩ := hd.lid
  have hc : ¬ ((s.disableLidOnExternalMonitors &&
      externalMonitorIsConnected d env s) = true) := by
    rcases hns with h | h <;> simp [h]
  have e : handleClosedLid d env s =
      if (if env.onBattery = true then s.lidActionBattery else s.lidActionAC) = d.lidLock then
        s.emit Call.lockScreen
      else if (if env.onBattery = true then s.lidActionBattery else s.lidActionAC) =
          d.lidSleep then s.emit Call.sleep
      else if (if env.onBattery = true then s.lidActionBattery else s.lidActionAC) =
          d.lidHibernate then s.emit Call.hibernate
      else if (if env.onBattery = true then s.lidActionBattery else s.lidActionAC) =
          d.lidShutdown then s.emit Call.shutdown
      else s := by
    unfold handleClosedLid
    dsimp only
    rw [if_neg hc]
  rw [e]
  refine ⟨?_, ?_, ?_, ?_, ?_⟩
  · intro h
    rw [if_pos h]
  · intro h
    rw [if_neg (by rw [h]; exact l1.symm), if_pos h]
  · intro h
    rw [if_neg (by rw [h]; exact l2.symm), if_neg (by rw [h]; exact l4.symm), if_pos h]
  · intro h
    rw [if_neg (by rw [h]; exact l3.symm), if_neg (by rw [h]; exact l5.symm),
      if_neg (by rw [h]; exact l6.symm), if_pos h]
  · intro h1 h2 h3 h4
    rw [if_neg h1, if_neg h2, if_neg h3, if_neg h4]

/-- Witness of C9: no external output is connected, the machine is on battery and
`lidActionBattery` is Hibernate (while `lidActionAC` is Lock): `hibernate` is the one
call. -/
theorem handleClosedLid_dispatch_witness :
    sampleDef.EnumsDistinct ∧
    externalMonitorIsConnected sampleDef sampleEnv
      { SysTray.init sampleDef with
        internalMonitor := "LVDS1", lidActionBattery := sampleDef.lidHibernate } = false ∧
    (handleClosedLid sampleDef sampleEnv
      { SysTray.init sampleDef with
        internalMonitor := "LVDS1", lidActionBattery := sampleDef.lidHibernate }).trace =
      [Call.hibernate] :=
  ⟨sampleDef_distinct, by decide,
    congrArg SysTray.trace
      ((handleClosedLid_dispatch sampleDef sampleDef_distinct sampleEnv
        { SysTray.init sampleDef with
          internalMonitor := "LVDS1", lidActionBattery := sampleDef.lidHibernate }
        (Or.inr (by decide))).2.2.1 rfl)⟩

theorem externalMonitorLoop_iff (d : Def) (internalMonitor : String)
    (outputs : List (String × Bool)) :
    externalMonitorLoop d internalMonitor outputs = true ↔
      ∃ o ∈ outputs, o.1 ≠ internalMonitor ∧ startsWith o.1 d.VIRTUAL_MONITOR = false ∧
        o.2 = true := by
  induction outputs with
  | nil => simp [externalMonitorLoop]
  | cons o rest ih =>
    obtain ⟨key, value⟩ := o
    unfold externalMonitorLoop
    by_cases hk : key ≠ internalMonitor ∧ startsWith key d.VIRTUAL_MONITOR = false
    · rw [if_pos hk]
      cases value with
      | true =>
        simp only [if_true, true_iff]
        exact ⟨(key, true), List.mem_cons_self _ _, hk.1, hk.2, rfl⟩
      | false =>
        rw [if_neg (by simp), ih]
        constructor
        · rintro ⟨o, ho, h⟩
          exact ⟨o, List.mem_cons_of_mem _ ho, h⟩
        · rintro ⟨o, ho, h1, h2, h3⟩
          rcases List.mem_cons.mp ho with e | hm
          · rw [e] at h3
            exact absurd h3 (by simp)
          · exact ⟨o, hm, h1, h2, h3⟩
    · rw [if_neg hk, ih]
      constructor
      · rintro ⟨o, ho, h⟩
        exact ⟨o, List.mem_cons_of_mem _ ho, h⟩
      · rintro ⟨o, ho, h1, h2, h3⟩
        rcases List.mem_cons.mp ho with e | hm
        · rw [e] at h1 h2
          exact absurd ⟨h1, h2⟩ hk
        · exact ⟨o, hm, h1, h2, h3⟩

/-- C10: `externalMonitorIsConnected()` returns true if and only if some output has a
name different from `internalMonitor`, not starting with the virtual-monitor prefix, and
is connected; a disconnected external output listed before a connected one does not make
the result false. -/
theorem externalMonitorIsConnected_iff (d : Def) (env : Env) (s : SysTray) :
    (externalMonitorIsConnected d env s = true ↔
      ∃ o ∈ env.outputs, o.1 ≠ s.internalMonitor ∧
        startsWith o.1 d.VIRTUAL_MONITOR = false ∧ o.2 = true) ∧
    externalMonitorIsConnected sampleDef
      { sampleEnv with outputs := [("HDMI1", false), ("LVDS1", true), ("VGA1", true)] }
      { SysTray.init sampleDef with internalMonitor := "LVDS1" } = true :=
  ⟨externalMonitorLoop_iff d s.internalMonitor env.outputs, by decide⟩

/-! ## The idle timer (C11 to C13) -/

theorem timeoutTray_fields (env : Env) (s : SysTray) :
    (timeoutTray env s).timeouts = s.timeouts ∧
    (timeoutTray env s).autoSuspendBattery = s.autoSuspendBattery ∧
    (timeoutTray env s).autoSuspendAC = s.autoSuspendAC ∧
    (timeoutTray env s).autoSuspendBatteryAction = s.autoSuspendBatteryAction ∧
    (timeoutTray env s).autoSuspendACAction = s.autoSuspendACAction ∧
    powerActions (timeoutTray env s).trace = powerActions s.trace := by
  unfold timeoutTray
  dsimp only
  split_ifs <;>
    simp [trayShow, trayHide, SysTray.emit, powerActions, Call.isPowerAction]

theorem powerActions_suspendCalls (d : Def) (a : Int) :
    powerActions (suspendCalls d a) = suspendCalls d a := by
  unfold suspendCalls
  split_ifs <;> simp [powerActions, Call.isPowerAction]

/-- The second part of `timeout` when the condition of `doSuspend` fails: the counter
goes up by one, nothing else changes. -/
theorem timeoutSuspend_count (d : Def) (env : Env) (uIdle : Int) (s : SysTray)
    (h : ¬ (0 < (if env.onBattery = true then s.autoSuspendBattery else s.autoSuspendAC) ∧
      (if env.onBattery = true then s.autoSuspendBattery else s.autoSuspendAC) ≤ s.timeouts ∧
      (if env.onBattery = true then s.autoSuspendBattery else s.autoSuspendAC) ≤ uIdle ∧
      env.hasInhibit = false)) :
    timeoutSuspend d env uIdle s = { s with timeouts := wrap32 (s.timeouts + 1) } := by
  unfold timeoutSuspend
  dsimp only
  rw [if_pos]
  simp only [Bool.not_eq_true', Bool.and_eq_false_iff, decide_eq_false_iff_not,
    Bool.not_eq_false']
  by_contra hc
  apply h
  simp only [not_or, not_not] at hc
  obtain ⟨⟨⟨h1, h2⟩, h3⟩, h4⟩ := hc
  exact ⟨h1, h2, h3, by simpa using h4⟩

/-- The second part of `timeout` when the condition of `doSuspend` holds: the counter is
reset and the action is dispatched. -/
theorem timeoutSuspend_fire (d : Def) (env : Env) (uIdle : Int) (s : SysTray)
    (h : 0 < (if env.onBattery = true then s.autoSuspendBattery else s.autoSuspendAC) ∧
      (if env.onBattery = true then s.autoSuspendBattery else s.autoSuspendAC) ≤ s.timeouts ∧
      (if env.onBattery = true then s.autoSuspendBattery else s.autoSuspendAC) ≤ uIdle ∧
      env.hasInhibit = false) :
    timeoutSuspend d env uIdle s =
      { s with
        timeouts := 0
        trace := s.trace ++ suspendCalls d
          (if env.onBattery = true then s.autoSuspendBatteryAction
            else s.autoSuspendACAction) } := by
  obtain ⟨h1, h2, h3, h4⟩ := h
  unfold timeoutSuspend suspendCalls
  dsimp only
  rw [if_neg (by simp [h1, h2, h3, h4])]
  split_ifs <;> simp_all [SysTray.emit]

theorem timeout_some (d : Def) (env : Env) (s : SysTray) (u : Int)
    (hx : xIdle env = some u) :
    timeout d env s = some (timeoutSuspend d env u (timeoutTray env s)) := by
  unfold timeout
  dsimp only
  rw [hx]

/-- Every run of `timeout` that returns is a run of the member function
`Handler.timeout u`, with `u` the value `xIdle()` returned. -/
theorem timeout_runHandler (d : Def) (env : Env) (s : SysTray) :
    timeout d env s =
      (xIdle env).map (fun u => runHandler d env (Handler.timeout u) s) := by
  unfold timeout
  dsimp only
  cases xIdle env <;> rfl

/-- Without a display `xIdle` does not return, and neither does `timeout`. -/
theorem timeout_without_display (d : Def) (env : Env) (s : SysTray)
    (hx : env.xIdleInfo = none) : xIdle env = none ∧ timeout d env s = none := by
  have h : xIdle env = none := by
    unfold xIdle
    rw [hx]
  refine ⟨h, ?_⟩
  unfold timeout
  dsimp only
  rw [h]

/-- One tick on which `xIdle()` returns `u` and the condition of `doSuspend` fails. -/
theorem timeout_count (d : Def) (env : Env) (s : SysTray) (u : Int)
    (hx : xIdle env = some u)
    (h : ¬ (0 < (if env.onBattery = true then s.autoSuspendBattery else s.autoSuspendAC) ∧
      (if env.onBattery = true then s.autoSuspendBattery else s.autoSuspendAC) ≤ s.timeouts ∧
      (if env.onBattery = true then s.autoSuspendBattery else s.autoSuspendAC) ≤ u ∧
      env.hasInhibit = false)) :
    ∃ t, timeout d env s = some t ∧
      t.timeouts = wrap32 (s.timeouts + 1) ∧
      powerActions t.trace = powerActions s.trace ∧
      t.autoSuspendBattery = s.autoSuspendBattery ∧
      t.autoSuspendAC = s.autoSuspendAC ∧
      t.autoSuspendBatteryAction = s.autoSuspendBatteryAction ∧
      t.autoSuspendACAction = s.autoSuspendACAction := by
  obtain ⟨t1, t2, t3, t4, t5, t6⟩ := timeoutTray_fields env s
  refine ⟨_, timeout_some d env s u hx, ?_⟩
  rw [timeoutSuspend_count d env u (timeoutTray env s) (by rw [t1, t2, t3]; exact h)]
  exact ⟨by rw [← t1], t6, t2, t3, t4, t5⟩

/-- One tick on which `xIdle()` returns `u` and the condition of `doSuspend` holds. -/
theorem timeout_fire (d : Def) (env : Env) (s : SysTray) (u : Int)
    (hx : xIdle env = some u)
    (h : 0 < (if env.onBattery = true then s.autoSuspendBattery else s.autoSuspendAC) ∧
      (if env.onBattery = true then s.autoSuspendBattery else s.autoSuspendAC) ≤ s.timeouts ∧
      (if env.onBattery = true then s.autoSuspendBattery else s.autoSuspendAC) ≤ u ∧
      env.hasInhibit = false) :
    ∃ t, timeout d env s = some t ∧
      t.timeouts = 0 ∧
      powerActions t.trace = powerActions s.trace ++ suspendCalls d
        (if env.onBattery = true then s.autoSuspendBatteryAction
          else s.autoSuspendACAction) ∧
      t.autoSuspendBattery = s.autoSuspendBattery ∧
      t.autoSuspendAC = s.autoSuspendAC ∧
      t.autoSuspendBatteryAction = s.autoSuspendBatteryAction ∧
      t.autoSuspendACAction = s.autoSuspendACAction := by
  obtain ⟨t1, t2, t3, t4, t5, t6⟩ := timeoutTray_fields env s
  refine ⟨_, timeout_some d env s u hx, ?_⟩
  rw [timeoutSuspend_fire d env u (timeoutTray env s) (by rw [t1, t2, t3]; exact h)]
  refine ⟨rfl, ?_, t2, t3, t4, t5⟩
  show powerActions ((timeoutTray env s).trace ++ _) = _
  rw [powerActions_append, powerActions_suspendCalls, t6, t4, t5]

theorem suspendCalls_cases (d : Def) (hd : d.EnumsDistinct) :
    suspendCalls d d.suspendSleep = [Call.sleep] ∧
    suspendCalls d d.suspendHibernate = [Call.hibernate] ∧
    suspendCalls d d.suspendShutdown = [Call.shutdown] ∧
    suspendCalls d d.suspendNone = [] ∧
    (∀ a, a ≠ d.suspendSleep → a ≠ d.suspendHibernate → a ≠ d.suspendShutdown →
      suspendCalls d a = []) := by
  have h := hd.2.2
  simp only [List.nodup_cons, List.mem_cons, List.mem_singleton, not_or, List.not_mem_nil,
    not_false_eq_true, List.nodup_nil, and_true] at h
  obtain ⟨⟨n1, n2, n3⟩, ⟨m1, m2⟩, k1⟩ := h
  unfold suspendCalls
  refine ⟨by simp, ?_, ?_, ?_, ?_⟩
  · rw [if_neg (Ne.symm m1), if_pos rfl]
  · rw [if_neg (Ne.symm m2), if_neg (Ne.symm k1), if_pos rfl]
  · rw [if_neg n1, if_neg n2, if_neg n3]
  · intro a a1 a2 a3
    rw [if_neg a1, if_neg a2, if_neg a3]

/-- Counterexample to C11 as stated: with an inhibit held (and the display open), one
tick takes the counter `timeouts` from 0 to 1. -/
theorem timeout_inhibited_counts :
    ({ sampleEnv with hasInhibit := true } : Env).hasInhibit = true ∧
    (SysTray.init sampleDef).timeouts = 0 ∧
    (timeout sampleDef { sampleEnv with hasInhibit := true }
      (SysTray.init sampleDef)).map SysTray.timeouts = some 1 ∧
    (timeout sampleDef { sampleEnv with hasInhibit := true }
      (SysTray.init sampleDef)).map SysTray.timeouts ≠
        some (SysTray.init sampleDef).timeouts := by
  decide

/-- C11, amended: on an idle tick with a power-management inhibit held
(`pm->HasInhibit()` true) and the X display open, so that `xIdle()` returns, `timeout`
returns, executes no auto-suspend action, but does count the tick: the counter
`timeouts` after the tick is the counter before it plus one (the counter being below the
largest `int`). -/
theorem timeout_inhibited (d : Def) (env : Env) (s : SysTray) (uIdle : Int)
    (hx : xIdle env = some uIdle) (hinh : env.hasInhibit = true)
    (hr : InInt32 (s.timeouts + 1)) :
    (timeout d env s).map (fun t => powerActions t.trace) = some (powerActions s.trace) ∧
    (timeout d env s).map SysTray.timeouts = some (s.timeouts + 1) := by
  obtain ⟨t, ht, c1, c2, -⟩ := timeout_count d env s uIdle hx (by simp [hinh])
  rw [ht]
  exact ⟨congrArg some c2, congrArg some (by rw [c1, wrap32_eq_self hr])⟩

/-- Witness of C11, amended: the third tick, with an inhibit held and the display open,
takes the counter from 2 to 3 and makes no call to the power manager. -/
theorem timeout_inhibited_witness :
    xIdle { sampleEnv with hasInhibit := true } = some 0 ∧
    ({ sampleEnv with hasInhibit := true } : Env).hasInhibit = true ∧
    InInt32 (({ SysTray.init sampleDef with timeouts := 2 } : SysTray).timeouts + 1) ∧
    (timeout sampleDef { sampleEnv with hasInhibit := true }
      { SysTray.init sampleDef with timeouts := 2 }).map
        (fun t => powerActions t.trace) = some [] ∧
    (timeout sampleDef { sampleEnv with hasInhibit := true }
      { SysTray.init sampleDef with timeouts := 2 }).map SysTray.timeouts = some 3 :=
  ⟨by decide, rfl, by decide,
    timeout_inhibited sampleDef { sampleEnv with hasInhibit := true }
      { SysTray.init sampleDef with timeouts := 2 } 0 (by decide) rfl (by decide)⟩

/-- C12: on an idle tick with no power-management inhibit on which `xIdle()` returns the
sampled idle minutes `uIdle`, with `T` the auto-suspend timeout and `A` the auto-suspend
action of the current power source: if `T > 0`, `timeouts >= T` and `uIdle >= T`,
`timeout` sets `timeouts` to 0 and executes `A` (Sleep `sleep`, Hibernate `hibernate`,
Shutdown `shutdown`, None and any other value no call); in every other case it executes
no action and sets `timeouts` to `timeouts + 1` (the counter being below the largest
`int`). With `T = 0` no action is ever executed. -/
theorem timeout_tick (d : Def) (hd : d.EnumsDistinct) (env : Env) (s : SysTray)
    (uIdle : Int) (hx : xIdle env = some uIdle) (hinh : env.hasInhibit = false) :
    ((0 < (if env.onBattery = true then s.autoSuspendBattery else s.autoSuspendAC) ∧
      (if env.onBattery = true then s.autoSuspendBattery else s.autoSuspendAC) ≤ s.timeouts ∧
      (if env.onBattery = true then s.autoSuspendBattery else s.autoSuspendAC) ≤ uIdle) →
      (timeout d env s).map SysTray.timeouts = some 0 ∧
      ((if env.onBattery = true then s.autoSuspendBatteryAction else s.autoSuspendACAction)
          = d.suspendSleep →
        (timeout d env s).map (fun t => powerActions t.trace) =
          some (powerActions s.trace ++ [Call.sleep])) ∧
      ((if env.onBattery = true then s.autoSuspendBatteryAction else s.autoSuspendACAction)
          = d.suspendHibernate →
        (timeout d env s).map (fun t => powerActions t.trace) =
          some (powerActions s.trace ++ [Call.hibernate])) ∧
      ((if env.onBattery = true then s.autoSuspendBatteryAction else s.autoSuspendACAction)
          = d.suspendShutdown →
        (timeout d env s).map (fun t => powerActions t.trace) =
          some (powerActions s.trace ++ [Call.shutdown])) ∧
      ((if env.onBattery = true then s.autoSuspendBatteryAction else s.autoSuspendACAction)
          = d.suspendNone →
        (timeout d env s).map (fun t => powerActions t.trace) =
          some (powerActions s.trace)) ∧
      ((if env.onBattery = true then s.autoSuspendBatteryAction else s.autoSuspendACAction)
          ≠ d.suspendSleep →
        (if env.onBattery = true then s.autoSuspendBatteryAction else s.autoSuspendACAction)
          ≠ d.suspendHibernate →
        (if env.onBattery = true then s.autoSuspendBatteryAction else s.autoSuspendACAction)
          ≠ d.suspendShutdown →
        (timeout d env s).map (fun t => powerActions t.trace) =
          some (powerActions s.trace))) ∧
    (¬ (0 < (if env.onBattery = true then s.autoSuspendBattery else s.autoSuspendAC) ∧
      (if env.onBattery = true then s.autoSuspendBattery else s.autoSuspendAC) ≤ s.timeouts ∧
      (if env.onBattery = true then s.autoSuspendBattery else s.autoSuspendAC) ≤ uIdle) →
      (timeout d env s).map (fun t => powerActions t.trace) = some (powerActions s.trace) ∧
      (timeout d env s).map SysTray.timeouts = some (wrap32 (s.timeouts + 1)) ∧
      (InInt32 (s.timeouts + 1) →
        (timeout d env s).map SysTray.timeouts = some (s.timeouts + 1))) ∧
    ((if env.onBattery = true then s.autoSuspendBattery else s.autoSuspendAC) = 0 →
      (timeout d env s).map (fun t => powerActions t.trace) =
        some (powerActions s.trace)) := by
  obtain ⟨k1, k2, k3, k4, k5⟩ := suspendCalls_cases d hd
  refine ⟨?_, ?_, ?_⟩
  · rintro ⟨h1, h2, h3⟩
    obtain ⟨t, ht, f1, f2, -⟩ := timeout_fire d env s uIdle hx ⟨h1, h2, h3, hinh⟩
    rw [ht]
    refine ⟨congrArg some f1, ?_, ?_, ?_, ?_, ?_⟩
    · intro ha
      exact congrArg some (f2.trans (by rw [ha, k1]))
    · intro ha
      exact congrArg some (f2.trans (by rw [ha, k2]))
    · intro ha
      exact congrArg some (f2.trans (by rw [ha, k3]))
    · intro ha
      exact congrArg some (f2.trans (by rw [ha, k4, List.append_nil]))
    · intro a1 a2 a3
      exact congrArg some (f2.trans (by rw [k5 _ a1 a2 a3, List.append_nil]))
  · intro hc
    obtain ⟨t, ht, c1, c2, -⟩ := timeout_count d env s uIdle hx
      (fun h => hc ⟨h.1, h.2.1, h.2.2.1⟩)
    rw [ht]
    exact ⟨congrArg some c2, congrArg some c1,
      fun hr => congrArg some (by rw [c1, wrap32_eq_self hr])⟩
  · intro h0
    obtain ⟨t, ht, -, c2, -⟩ := timeout_count d env s uIdle hx
      (fun h => absurd h.1 (by rw [h0]; exact lt_irrefl 0))
    rw [ht]
    exact congrArg some c2

/-- Witness of C12: on battery with timeout 5, action Sleep, five ticks counted and the
user idle for five minutes, the tick calls `sleep` and resets the counter. -/
theorem timeout_tick_witness :
    sampleDef.EnumsDistinct ∧ xIdle idleTick = some 5 ∧ idleTick.hasInhibit = false ∧
    (timeout sampleDef idleTick
      { SysTray.init sampleDef with autoSuspendBattery := 5, timeouts := 5 }).map
        SysTray.timeouts = some 0 ∧
    (timeout sampleDef idleTick
      { SysTray.init sampleDef with autoSuspendBattery := 5, timeouts := 5 }).map
        (fun t => powerActions t.trace) = some [Call.sleep] :=
  have h := (timeout_tick sampleDef sampleDef_distinct idleTick
    { SysTray.init sampleDef with autoSuspendBattery := 5, timeouts := 5 } 5 (by decide)
    rfl).1 (by decide)
  ⟨sampleDef_distinct, by decide, rfl, h.1, h.2.1 rfl⟩

theorem runTimeout_cons (d : Def) (e : Env) (rest : List Env) (s t : SysTray)
    (h : timeout d e s = some t) : runTimeout d (e :: rest) s = runTimeout d rest t := by
  rw [runTimeout, h]

theorem runTimeout_append_one (d : Def) (e : Env) (pre : List Env) :
    ∀ s t : SysTray, runTimeout d pre s = some t →
      runTimeout d (pre ++ [e]) s = timeout d e t := by
  induction pre with
  | nil =>
    intro s t h
    have h2 : runTimeout d [] s = some s := by simp only [runTimeout]
    have hs : s = t := by
      rw [h2] at h
      exact Option.some.inj h
    subst hs
    show runTimeout d [e] s = timeout d e s
    cases htm : timeout d e s with
    | none => simp only [runTimeout, htm]
    | some u => simp only [runTimeout, htm]
  | cons a rest ih =>
    intro s t h
    cases ha : timeout d a s with
    | none =>
      rw [runTimeout, ha] at h
      exact absurd h (by simp)
    | some u =>
      rw [runTimeout_cons d a rest s u ha] at h
      rw [List.cons_append, runTimeout_cons d a (rest ++ [e]) s u ha]
      exact ih u t h

theorem sampledIdle_returns {n : Int} {e : Env} (h : SampledIdleAtLeast n e) :
    ∃ m, xIdle e = some m ∧ n ≤ m := by
  unfold SampledIdleAtLeast at h
  cases hx : xIdle e with
  | none => rw [hx] at h; exact absurd h (by simp)
  | some m => rw [hx] at h; exact ⟨m, rfl, h⟩

/-- While the counter is below the timeout 5, every tick on which `xIdle()` returns
only counts. -/
theorem runTimeout_below_five (d : Def) (ticks : List Env) :
    ∀ s : SysTray, 0 ≤ s.timeouts → s.timeouts + ticks.length ≤ 5 →
      (∀ e ∈ ticks, (∃ m, xIdle e = some m) ∧
        (if e.onBattery = true then s.autoSuspendBattery else s.autoSuspendAC) = 5) →
      ∃ t, runTimeout d ticks s = some t ∧
        t.timeouts = s.timeouts + ticks.length ∧
        powerActions t.trace = powerActions s.trace ∧
        t.autoSuspendBattery = s.autoSuspendBattery ∧
        t.autoSuspendAC = s.autoSuspendAC ∧
        t.autoSuspendBatteryAction = s.autoSuspendBatteryAction ∧
        t.autoSuspendACAction = s.autoSuspendACAction := by
  induction ticks with
  | nil =>
    intro s _ _ _
    exact ⟨s, by rw [runTimeout], by simp, rfl, rfl, rfl, rfl, rfl⟩
  | cons e rest ih =>
    intro s h0 hlen hT
    have hlen2 : s.timeouts + (rest.length + 1) ≤ 5 := by
      simpa [List.length_cons] using hlen
    obtain ⟨⟨m, hm⟩, hTe⟩ := hT e (List.mem_cons_self e rest)
    obtain ⟨t1, ht1, c1, c2, c3, c4, c5, c6⟩ := timeout_count d e s m hm (by
      rintro ⟨-, h2, -⟩
      rw [hTe] at h2
      omega)
    have hw : wrap32 (s.timeouts + 1) = s.timeouts + 1 :=
      wrap32_eq_self (by unfold InInt32; omega)
    rw [hw] at c1
    obtain ⟨t, ht, i1, i2, i3, i4, i5, i6⟩ := ih t1 (by rw [c1]; omega)
      (by rw [c1]; omega)
      (fun e2 he2 => by rw [c3, c4]; exact hT e2 (List.mem_cons_of_mem e he2))
    refine ⟨t, by rw [runTimeout_cons d e rest s t1 ht1]; exact ht, ?_, i2.trans c2,
      i3.trans c3, i4.trans c4, i5.trans c5, i6.trans c6⟩
    rw [i1, c1, List.length_cons]
    push_cast
    ring

/-- Counterexample to C13 as stated: from `timeouts = 0` with timeout 5, action Sleep, no
inhibit and every tick sampling five idle minutes, the fifth tick executes nothing and
leaves `timeouts = 5`; `sleep` is called on the sixth tick. -/
theorem fifth_tick_does_not_suspend :
    let s : SysTray := { SysTray.init sampleDef with autoSuspendBattery := 5 }
    s.timeouts = 0 ∧ idleTick.hasInhibit = false ∧ xIdle idleTick = some 5 ∧
    s.autoSuspendBatteryAction = sampleDef.suspendSleep ∧
    (runTimeout sampleDef [idleTick, idleTick, idleTick, idleTick, idleTick] s).map
      (fun t => powerActions t.trace) = some [] ∧
    (runTimeout sampleDef [idleTick, idleTick, idleTick, idleTick, idleTick] s).map
      SysTray.timeouts = some 5 ∧
    (runTimeout sampleDef
      [idleTick, idleTick, idleTick, idleTick, idleTick, idleTick] s).map
      (fun t => powerActions t.trace) = some [Call.sleep] := by
  decide

/-- C13, amended: starting from `timeouts = 0` with auto-suspend timeout 5, no inhibit,
and every tick sampling idle minutes `>= 5`, a sequence of `timeout` ticks executes the
auto-suspend action on the 6th tick and on no earlier tick (the first five ticks take
`timeouts` from 0 to 5), and leaves `timeouts = 0` after that tick. -/
theorem sixth_tick_suspends (d : Def) (s : SysTray) (pre : List Env) (e6 : Env)
    (h0 : s.timeouts = 0) (hlen : pre.length = 5)
    (hticks : ∀ e ∈ pre ++ [e6], e.hasInhibit = false ∧ SampledIdleAtLeast 5 e ∧
      (if e.onBattery = true then s.autoSuspendBattery else s.autoSuspendAC) = 5) :
    (∀ k : Nat, k ≤ 5 →
      (runTimeout d (pre.take k) s).map (fun t => powerActions t.trace) =
        some (powerActions s.trace) ∧
      (runTimeout d (pre.take k) s).map SysTray.timeouts = some (k : Int)) ∧
    (runTimeout d (pre ++ [e6]) s).map (fun t => powerActions t.trace) =
      some (powerActions s.trace ++ suspendCalls d
        (if e6.onBattery = true then s.autoSuspendBatteryAction
          else s.autoSuspendACAction)) ∧
    (runTimeout d (pre ++ [e6]) s).map SysTray.timeouts = some 0 := by
  have hpre : ∀ e ∈ pre, (∃ m, xIdle e = some m) ∧
      (if e.onBattery = true then s.autoSuspendBattery else s.autoSuspendAC) = 5 := by
    intro e he
    obtain ⟨-, hi, hT⟩ := hticks e (List.mem_append_left _ he)
    obtain ⟨m, hm, -⟩ := sampledIdle_returns hi
    exact ⟨⟨m, hm⟩, hT⟩
  refine ⟨?_, ?_⟩
  · intro k hk
    have hl : (pre.take k).length = k := by
      rw [List.length_take, hlen]
      omega
    obtain ⟨t, ht, a1, a2, -⟩ := runTimeout_below_five d (pre.take k) s (by rw [h0])
      (by rw [h0, hl]; omega) (fun e he => hpre e (List.mem_of_mem_take he))
    rw [h0, hl] at a1
    rw [ht]
    exact ⟨congrArg some a2, congrArg some (by rw [a1]; simp)⟩
  · obtain ⟨t, ht, a1, a2, a3, a4, a5, a6⟩ := runTimeout_below_five d pre s (by rw [h0])
      (by rw [h0, hlen]; norm_num) hpre
    rw [h0, hlen] at a1
    obtain ⟨i6, x6, t6⟩ := hticks e6 (List.mem_append_right _ (List.mem_singleton_self e6))
    obtain ⟨m, hm, hm5⟩ := sampledIdle_returns x6
    obtain ⟨u, hu, f1, f2, -⟩ := timeout_fire d e6 t m hm (by
      rw [a3, a4, t6, a1]
      exact ⟨by norm_num, by norm_num, hm5, i6⟩)
    rw [runTimeout_append_one d e6 pre s t ht, hu]
    exact ⟨congrArg some (f2.trans (by rw [a2, a5, a6])), congrArg some f1⟩

/-- Witness of C13, amended: six ticks on battery, five idle minutes at each, timeout 5,
action Sleep: nothing after five ticks, `sleep` on the sixth. -/
theorem sixth_tick_suspends_witness :
    ({ SysTray.init sampleDef with autoSuspendBattery := 5 } : SysTray).timeouts = 0 ∧
    (runTimeout sampleDef
      ([idleTick, idleTick, idleTick, idleTick, idleTick].take 5)
      { SysTray.init sampleDef with autoSuspendBattery := 5 }).map
        (fun t => powerActions t.trace) = some [] ∧
    (runTimeout sampleDef
      ([idleTick, idleTick, idleTick, idleTick, idleTick] ++ [idleTick])
      { SysTray.init sampleDef with autoSuspendBattery := 5 }).map
        (fun t => powerActions t.trace) = some [Call.sleep] ∧
    (runTimeout sampleDef
      ([idleTick, idleTick, idleTick, idleTick, idleTick] ++ [idleTick])
      { SysTray.init sampleDef with autoSuspendBattery := 5 }).map
        SysTray.timeouts = some 0 :=
  have h := sixth_tick_suspends sampleDef
    { SysTray.init sampleDef with autoSuspendBattery := 5 }
    [idleTick, idleTick, idleTick, idleTick, idleTick] idleTick rfl rfl (by decide)
  ⟨rfl, (h.1 5 (Nat.le_refl 5)).1, h.2.1, h.2.2⟩

/-! ## Idle minutes (C14 and C16) -/

/-- Below 597 hours `xIdle` is the idle time modulo one hour, in whole minutes. -/
theorem xIdle_some (env : Env) (v : Int) (hx : env.xIdleInfo = some v) (h0 : 0 ≤ v)
    (h1 : v < 2149200000) : xIdle env = some ((v % 3600000) / 60000) := by
  have w1 : wrap64 v = v := by unfold wrap64; omega
  have q1 : Int.tdiv v (1000 * 60 * 60) = v / 3600000 := by
    rw [Int.tdiv_eq_ediv h0 (by norm_num)]
    norm_num
  have hh : 0 ≤ v / 3600000 ∧ v / 3600000 ≤ 596 := by omega
  have w2 : wrap32 (v / 3600000) = v / 3600000 := by unfold wrap32; omega
  have w3 : wrap32 (v / 3600000 * 1000) = v / 3600000 * 1000 := by unfold wrap32; omega
  have w4 : wrap32 (v / 3600000 * 1000 * 60) = v / 3600000 * 1000 * 60 := by
    unfold wrap32; omega
  have w5 : wrap32 (v / 3600000 * 1000 * 60 * 60) = v / 3600000 * 1000 * 60 * 60 := by
    unfold wrap32; omega
  have r1 : v - v / 3600000 * 1000 * 60 * 60 = v % 3600000 := by omega
  have hm : 0 ≤ v % 3600000 ∧ v % 3600000 < 3600000 := by omega
  have w6 : wrap64 (v % 3600000) = v % 3600000 := by unfold wrap64; omega
  have q2 : Int.tdiv (v % 3600000) (1000 * 60) = v % 3600000 / 60000 := by
    rw [Int.tdiv_eq_ediv hm.1 (by norm_num)]
    norm_num
  have w7 : wrap32 (v % 3600000 / 60000) = v % 3600000 / 60000 := by unfold wrap32; omega
  unfold xIdle
  rw [hx]
  dsimp only
  rw [w1, q1, w2, w3, w4, w5, r1, w6, q2, w7]

/-- With the display open and below the overflow of its `int` product, `xIdle` returns a
minute of the hour. -/
theorem xIdle_range (env : Env) (h : IdleBelowOverflow env) :
    ∃ m, xIdle env = some m ∧ 0 ≤ m ∧ m ≤ 59 := by
  unfold IdleBelowOverflow at h
  cases hx : env.xIdleInfo with
  | none =>
    rw [hx] at h
    exact absurd h (by simp)
  | some v =>
    rw [hx] at h
    obtain ⟨h0, h1⟩ := h
    refine ⟨_, xIdle_some env v hx h0 h1, ?_, ?_⟩ <;> omega

/-- C14, the code at the failing input: for an idle time of exactly one hour
(3600000 ms, no overflow anywhere) `xIdle` returns 0, while the idle time truncated to
whole minutes is 60; for 59 minutes and 59 seconds it returns 59, and for 61 minutes
it returns 1. -/
theorem xIdle_drops_hours :
    xIdle { sampleEnv with xIdleInfo := some 3600000 } = some 0 ∧
    (3600000 : Int) / 60000 = 60 ∧
    xIdle { sampleEnv with xIdleInfo := some 3599000 } = some 59 ∧
    xIdle { sampleEnv with xIdleInfo := some 3660000 } = some 1 := by
  decide

/-- Ticks on which `xIdle()` returns less than the applicable timeout never suspend. -/
theorem runTimeout_idle_short (d : Def) (ticks : List Env) :
    ∀ s : SysTray,
      (∀ e ∈ ticks, ∃ m, xIdle e = some m ∧
        m < (if e.onBattery = true then s.autoSuspendBattery else s.autoSuspendAC)) →
      ∃ t, runTimeout d ticks s = some t ∧
        powerActions t.trace = powerActions s.trace ∧
        t.autoSuspendBattery = s.autoSuspendBattery ∧
        t.autoSuspendAC = s.autoSuspendAC := by
  induction ticks with
  | nil =>
    intro s _
    exact ⟨s, by rw [runTimeout], rfl, rfl, rfl⟩
  | cons e rest ih =>
    intro s h
    obtain ⟨m, hm, he⟩ := h e (List.mem_cons_self e rest)
    obtain ⟨t1, ht1, -, c2, c3, c4, -⟩ := timeout_count d e s m hm (by
      rintro ⟨-, -, h3, -⟩
      exact absurd h3 (not_le.mpr he))
    obtain ⟨t, ht, i1, i2, i3⟩ := ih t1
      (fun e2 he2 => by rw [c3, c4]; exact h e2 (List.mem_cons_of_mem e he2))
    exact ⟨t, by rw [runTimeout_cons d e rest s t1 ht1]; exact ht, i1.trans c2,
      i2.trans c3, i3.trans c4⟩

/-- Counterexample to C16 as stated: for an idle time of 597 hours (2149200000 ms, which
the 32-bit idle counter of the X server can reach) the `int` product
`hours*1000*60*60` of `xIdle` exceeds the largest `int`; with the two's complement
wrap-around of that product `xIdle` returns 71582, not a value in 0..59, and with
timeout 60 and 60 ticks counted `timeout` then calls `sleep`. -/
theorem xIdle_overflow_suspends :
    let env : Env := { sampleEnv with xIdleInfo := some 2149200000 }
    let s : SysTray :=
      { SysTray.init sampleDef with autoSuspendBattery := 60, timeouts := 60 }
    xIdle env = some 71582 ∧ ¬ ((71582 : Int) ≤ 59) ∧
    60 ≤ (if env.onBattery = true then s.autoSuspendBattery else s.autoSuspendAC) ∧
    (timeout sampleDef env s).map (fun t => powerActions t.trace) = some [Call.sleep] := by
  decide

/-- C16, amended: because `xIdle` reduces the idle time modulo one hour, its result is in
0..59 for every non-negative idle time below 597 hours (2149200000 ms, where its `int`
product `hours*1000*60*60` starts to overflow); hence for every state whose applicable
auto-suspend timeout is at least 60 minutes, `timeout` never executes the auto-suspend
action, on any tick of any sequence of ticks with such idle times. -/
theorem no_suspend_from_sixty_minutes (d : Def) (ticks : List Env) (s : SysTray)
    (hidle : ∀ e ∈ ticks, IdleBelowOverflow e)
    (hT : ∀ e ∈ ticks,
      60 ≤ (if e.onBattery = true then s.autoSuspendBattery else s.autoSuspendAC)) :
    (∀ e ∈ ticks, ∃ m, xIdle e = some m ∧ 0 ≤ m ∧ m ≤ 59) ∧
    (∀ k : Nat,
      (runTimeout d (ticks.take k) s).map (fun t => powerActions t.trace) =
        some (powerActions s.trace)) ∧
    (runTimeout d ticks s).map (fun t => powerActions t.trace) =
      some (powerActions s.trace) := by
  have hshort : ∀ e ∈ ticks, ∃ m, xIdle e = some m ∧
      m < (if e.onBattery = true then s.autoSuspendBattery else s.autoSuspendAC) := by
    intro e he
    obtain ⟨m, hm, -, h1⟩ := xIdle_range e (hidle e he)
    have h2 := hT e he
    exact ⟨m, hm, by omega⟩
  refine ⟨fun e he => xIdle_range e (hidle e he), ?_, ?_⟩
  · intro k
    obtain ⟨t, ht, h1, -⟩ := runTimeout_idle_short d (ticks.take k) s
      (fun e he => hshort e (List.mem_of_mem_take he))
    rw [ht]
    exact congrArg some h1
  · obtain ⟨t, ht, h1, -⟩ := runTimeout_idle_short d ticks s hshort
    rw [ht]
    exact congrArg some h1

/-- Witness of C16, amended: timeout 60 on battery, 60 ticks already counted, the user
idle for 59 minutes and then for 2 hours: neither tick suspends. -/
theorem no_suspend_from_sixty_minutes_witness :
    xIdle { sampleEnv with xIdleInfo := some 7200000 } = some 0 ∧
    (runTimeout sampleDef
      [{ sampleEnv with xIdleInfo := some 3540000 },
        { sampleEnv with xIdleInfo := some 7200000 }]
      { SysTray.init sampleDef with autoSuspendBattery := 60, timeouts := 60 }).map
        (fun t => powerActions t.trace) = some [] :=
  ⟨by decide,
    (no_suspend_from_sixty_minutes sampleDef
      [{ sampleEnv with xIdleInfo := some 3540000 },
        { sampleEnv with xIdleInfo := some 7200000 }]
      { SysTray.init sampleDef with autoSuspendBattery := 60, timeouts := 60 }
      (by decide) (by decide)).2.2⟩

/-! ## The capability probes (C15) -/

/-- What the probes do on every bus: false on an invalid interface, true exactly on a
valid interface whose reply starts with `yes`, and an abort exactly on a valid interface
whose reply has no argument. Shown for `canSuspend`; the four bodies are alike. -/
theorem canSuspend_cases (bus : SystemBus) :
    (bus.ifaceValid = false → Login1.canSuspend bus = some false) ∧
    (Login1.canSuspend bus = some true ↔
      bus.ifaceValid = true ∧
        qlistFirst (bus.arguments Login1Method.canSuspend) = some "yes") ∧
    (Login1.canSuspend bus = none ↔
      bus.ifaceValid = true ∧ bus.arguments Login1Method.canSuspend = []) := by
  unfold Login1.canSuspend
  cases hv : bus.ifaceValid <;> cases ha : bus.arguments Login1Method.canSuspend with
  | nil => simp [qlistFirst]
  | cons a rest =>
    by_cases hy : a = "yes" <;> simp [qlistFirst, hy]

theorem showMessage_hidden (s : SysTray) (title : Title) (critical : Bool)
    (hh : (s.trayVisible && s.showNotifications) = false) :
    (showMessage s title critical).trace = s.trace ++ [Call.showMessage title critical] := by
  rw [showMessage_trace, if_neg (by simp [hh])]

theorem displayed_append_showMessage (t : List Call) (title : Title) (critical : Bool) :
    displayed (t ++ [Call.showMessage title critical]) = displayed t ∧
    displayedLow (t ++ [Call.showMessage title critical]) = displayedLow t := by
  simp [displayed, displayedLow, Call.isDisplayed, Call.isLowDisplayed]

theorem handleLow_sets_flag (env : Env) (left : ℚ) (s : SysTray)
    (hb : env.onBattery = true)
    (h : left ≤ ((wrap32 (s.lowBatteryValue + s.critBatteryValue) : Int) : ℚ)) :
    (handleLow env left s).wasLowBattery = true := by
  cases hw : s.wasLowBattery with
  | true => rw [handleLow_notified env left s hw]; exact hw
  | false => rw [handleLow_fire env left s hb hw h]

theorem handleLow_hidden (env : Env) (left : ℚ) (s : SysTray)
    (hh : (s.trayVisible && s.showNotifications) = false) :
    displayed (handleLow env left s).trace = displayed s.trace ∧
    displayedLow (handleLow env left s).trace = displayedLow s.trace := by
  have e := showMessage_hidden s (Title.lowBattery left) true hh
  have a := displayed_append_showMessage s.trace (Title.lowBattery left) true
  unfold handleLow
  dsimp only
  by_cases hc : left ≤ ((wrap32 (s.lowBatteryValue + s.critBatteryValue) : Int) : ℚ) ∧
      env.onBattery = true
  · rw [if_pos hc]
    by_cases hw : (!s.wasLowBattery) = true
    · rw [if_pos hw]
      show displayed (showMessage s (Title.lowBattery left) true).trace = _ ∧
        displayedLow (showMessage s (Title.lowBattery left) true).trace = _
      rw [e]
      exact a
    · rw [if_neg hw]
      exact ⟨rfl, rfl⟩
  · rw [if_neg hc]
    exact ⟨rfl, rfl⟩

theorem handleVeryLow_sets_flag (env : Env) (left : ℚ) (s : SysTray)
    (hb : env.onBattery = true)
    (h : left ≤ ((wrap32 (s.critBatteryValue + 1) : Int) : ℚ)) :
    (handleVeryLow env left s).wasVeryLowBattery = true := by
  unfold handleVeryLow
  dsimp only
  rw [if_pos ⟨h, hb⟩]
  cases hw : s.wasVeryLowBattery with
  | true => rw [if_neg (by simp)]; exact hw
  | false => rw [if_pos (by simp)]

theorem handleVeryLow_hidden (env : Env) (left : ℚ) (s : SysTray)
    (hh : (s.trayVisible && s.showNotifications) = false) :
    displayed (handleVeryLow env left s).trace = displayed s.trace := by
  have e := showMessage_hidden s (Title.veryLowBattery left) true hh
  have a := displayed_append_showMessage s.trace (Title.veryLowBattery left) true
  unfold handleVeryLow
  dsimp only
  by_cases hc : left ≤ ((wrap32 (s.critBatteryValue + 1) : Int) : ℚ) ∧
      env.onBattery = true
  · rw [if_pos hc]
    by_cases hw : (!s.wasVeryLowBattery) = true
    · rw [if_pos hw]
      show displayed (showMessage s (Title.veryLowBattery left) true).trace = _
      rw [e]
      exact a.1
    · rw [if_neg hw]
  · rw [if_neg hc]

theorem loadSettings_displayedLow (d : Def) (env : Env) (s : SysTray) :
    displayedLow (loadSettings d env s).trace = displayedLow s.trace := by
  unfold loadSettings
  simp only [disableHibernate_eq, disableSuspend_eq]
  split_ifs <;> simp [displayedLow, SysTray.emit, Call.isLowDisplayed]

/-- C17: `handleLow` and `handleVeryLow` set `wasLowBattery` / `wasVeryLowBattery` to true
whenever their threshold condition holds on battery, also when `showMessage` displays
nothing (tray not visible or `showNotifications` false). Therefore, when the threshold is
crossed while nothing can be displayed and the configuration is reloaded afterwards (for
instance to enable the notifications), no later low sample displays the low-battery
notification, as long as there is no AC transition. -/
theorem low_notification_lost (d : Def) (env env2 : Env) (s : SysTray) (left : ℚ)
    (later : List ℚ) (hb : env.onBattery = true)
    (hh : (s.trayVisible && s.showNotifications) = false) :
    (left ≤ ((wrap32 (s.lowBatteryValue + s.critBatteryValue) : Int) : ℚ) →
      (handleLow env left s).wasLowBattery = true ∧
      displayed (handleLow env left s).trace = displayed s.trace) ∧
    (left ≤ ((wrap32 (s.critBatteryValue + 1) : Int) : ℚ) →
      (handleVeryLow env left s).wasVeryLowBattery = true ∧
      displayed (handleVeryLow env left s).trace = displayed s.trace) ∧
    (left ≤ ((wrap32 (s.lowBatteryValue + s.critBatteryValue) : Int) : ℚ) →
      (runLow env later (loadSettings d env2 (handleLow env left s))).wasLowBattery = true ∧
      displayedLow (runLow env later (loadSettings d env2 (handleLow env left s))).trace =
        displayedLow s.trace) := by
  refine ⟨fun h => ⟨handleLow_sets_flag env left s hb h, (handleLow_hidden env left s hh).1⟩,
    fun h => ⟨handleVeryLow_sets_flag env left s hb h, handleVeryLow_hidden env left s hh⟩,
    ?_⟩
  intro h
  have f1 := handleLow_sets_flag env left s hb h
  have f2 : (loadSettings d env2 (handleLow env left s)).wasLowBattery = true := by
    rw [(loadSettings_flags d env2 _).1]
    exact f1
  rw [runLow_notified env later _ f2]
  refine ⟨f2, ?_⟩
  rw [loadSettings_displayedLow, (handleLow_hidden env left s hh).2]

/-- Witness of C17: low = 20, critical = 5, on battery, the tray icon visible and the
notifications off. The sample 20 sets the flag and displays nothing; a reload switches
the notifications on; the samples 15 and 10 follow, and the low-battery notification has
still not been displayed. -/
theorem low_notification_lost_witness :
    sampleEnv.onBattery = true ∧
    (mutedState.trayVisible && mutedState.showNotifications) = false ∧
    (loadSettings sampleDef notifyOnEnv (handleLow sampleEnv 20 mutedState)).showNotifications
      = true ∧
    (loadSettings sampleDef notifyOnEnv (handleLow sampleEnv 20 mutedState)).trayVisible
      = true ∧
    displayedLow (runLow sampleEnv [15, 10]
      (loadSettings sampleDef notifyOnEnv (handleLow sampleEnv 20 mutedState))).trace = [] :=
  have h20 : (20 : ℚ) ≤ ((wrap32 (mutedState.lowBatteryValue +
      mutedState.critBatteryValue) : Int) : ℚ) := by
    have e : wrap32 (mutedState.lowBatteryValue + mutedState.critBatteryValue) = 25 := by
      decide
    rw [e]
    norm_num
  have hf := handleLow_fire sampleEnv 20 mutedState rfl rfl h20
  ⟨rfl, rfl, by rw [hf]; rfl, by rw [hf]; rfl,
    ((low_notification_lost sampleDef sampleEnv notifyOnEnv mutedState 20 [15, 10] rfl
      rfl).2.2 h20).2⟩

end PowerKit
